import Mathlib

/-!
# TCP to TLS tunnel with an HTTP-proxy interface (index.js)

A shallow embedding of `index.js`.  The program is a set of callbacks that
Node runs on socket and server events.  The embedding keeps

* a table of sockets (`World.socks`), each with the flags, the data handed to
  `write`/`end`, the `pipe` destinations, the arguments of `connect` and the
  listeners registered per event, in registration order;
* the trace of effects (`World.trace`) in the order the program performed them;
* closures as data (`Listener`): one constructor per function expression of
  the source, with its captured variables as arguments.

An event is an input: `emit w s ev` runs the listeners that socket `s` has for
`ev`, in registration order, as `EventEmitter.emit` does.  An exception that
nothing catches ends the process (`World.crashed`): from then on `step`, which
feeds the program its inputs, changes nothing.
-/

namespace TLSTunnel

/-! ## Data model -/

/-- A socket object, named by its index in the socket table. -/
abbrev SockId := Nat

/-- The contents of a `Buffer`: one number per byte. -/
abbrev Bytes := List Nat

/-- The four methods of the global `log` object (index.js 20-26). -/
inductive LogLevel
  | trace
  | info
  | warn
  | err
  deriving DecidableEq

/-- The names of the events the program listens to on a socket, and `finish`,
on which the callback given to `end` runs. -/
inductive EventName
  | connect
  | close
  | error
  | finish
  deriving DecidableEq

/-- An event as the runtime emits it; `error` carries the error, as text. -/
inductive Event
  | connect
  | close
  | error (err : String)
  | finish
  deriving DecidableEq

/-- The name under which the listeners of an event are registered. -/
def Event.name : Event → EventName
  | .connect => .connect
  | .close => .close
  | .error _ => .error
  | .finish => .finish

/-- The function expressions of index.js that are registered as callbacks. -/
inductive Listener
  /-- index.js 106-109: logs `Tunnel #N connected to dest A`. -/
  | tunnelConnected
  /-- index.js 111-114: logs `Tunnel #N closed`. -/
  | tunnelClosed
  /-- index.js 116-119: logs `Tunnel #N error: E`. -/
  | tunnelError
  /-- index.js 121-128: `twoWayPipe(this, this.inSocket)`, then logs `ready`. -/
  | tunnelPipe
  /-- index.js 89-90: `() => other.destroy()`, with `other` captured. -/
  | destroyOther (other : SockId)
  /-- index.js 69: `function () { self.destroy(); }`, with `self` captured. -/
  | destroySelf (self : SockId)
  /-- index.js 160: logs `Connection #N closed`, with `socket` captured. -/
  | connClosed (socket : SockId)
  /-- index.js 161: logs `Connection #N error: E`, with `socket` captured. -/
  | connError (socket : SockId)
  /-- index.js 194-202: replies 200 on `socket`, then writes `head` to `this`;
  `socket` and `head` are captured. -/
  | replyEstablished (socket : SockId) (head : Option Bytes)
  deriving DecidableEq

/-- What the program does to the outside, in program order.  The port of
`connect` is the string `url.port`: `none` is the empty string, `some p` the
decimal digits of `p`.  The effect `uncaught` is an exception that no code
catches, with its error code: Node prints it and the process exits. -/
inductive Effect
  | log (level : LogLevel) (msg : String)
  | write (s : SockId) (data : Bytes)
  | endWith (s : SockId) (data : Bytes)
  | destroy (s : SockId)
  | pipe (src dst : SockId)
  | on (s : SockId) (ev : EventName) (l : Listener)
  | newTLSSocket (s : SockId)
  | connect (s : SockId) (port : Option Nat) (host : String)
  | uncaught (code : String)
  deriving DecidableEq

/-- The state of one socket object. -/
structure Socket where
  /-- The property `connID`, set by the connection handler (index.js 157). -/
  connID : Option Nat := none
  /-- The property `inSocket`, set by `createOutTLSSock` (index.js 104). -/
  inSocket : Option SockId := none
  /-- The property `remoteAddress`, kept by the runtime. -/
  remoteAddress : Option String := none
  /-- The data handed to `write` and `end`, in call order. -/
  written : List Bytes := []
  /-- Whether `end` has been called. -/
  ended : Bool := false
  /-- Whether `destroy` has been called. -/
  destroyed : Bool := false
  /-- The destinations given to `pipe`, in call order. -/
  pipes : List SockId := []
  /-- The arguments `(port, host)` of the calls of `connect`, in call order. -/
  connectArgs : List (Option Nat × String) := []
  /-- The listeners per event, in registration order. -/
  listeners : EventName → List Listener := fun _ => []

/-- The sockets, the allocator of `new tls.TLSSocket()`, the counter `connID`
of the server (index.js 144), the trace of effects, and whether the process
has exited on an uncaught exception. -/
structure World where
  socks : SockId → Socket
  nextSock : SockId
  connID : Nat
  trace : List Effect
  crashed : Bool

/-- A parsed `URL` object, reduced to the two properties index.js reads.  The
getter `port` returns a string: the empty string when the URL has no port
(`none`), else the decimal digits of the port (`some p`). -/
structure URL where
  hostname : String
  port : Option Nat
  deriving DecidableEq

/-- The parts of the Node platform that index.js calls and does not define:
the table `http.STATUS_CODES` and the constructor `new URL(s)`, which throws
(`none`) when `s` does not parse. -/
structure Platform where
  STATUS_CODES : Nat → Option String
  parseURL : String → Option URL

/-! ## Constants (index.js 40-46) -/

def STATUS_CODE_200 : Nat := 200

def STATUS_CODE_405 : Nat := 405

def HDR_CONNECTION_CLOSE : String := "Connection: close"

def DEFAULT_PORT : Nat := 443

/-- The constant `common.CRLF` of `_http_common`. -/
def CRLF : String := "\r\n"

/-! ## Primitives of the runtime -/

/-- Replaces the state of socket `s` by `f` of it. -/
def World.modify (w : World) (s : SockId) (f : Socket → Socket) : World :=
  { w with socks := Function.update w.socks s (f (w.socks s)) }

/-- Appends one effect to the trace. -/
def World.record (w : World) (e : Effect) : World :=
  { w with trace := w.trace ++ [e] }

/-- A call `logger.trace/info/warn/err(msg)`. -/
def logger (w : World) (level : LogLevel) (msg : String) : World :=
  w.record (.log level msg)

/-- A call `s.on(ev, l)`: the listener goes to the end of the list. -/
def Socket_on (w : World) (s : SockId) (ev : EventName) (l : Listener) : World :=
  (w.modify s fun k =>
    { k with listeners := Function.update k.listeners ev (k.listeners ev ++ [l]) }).record
    (.on s ev l)

/-- A call `s.write(data)`. -/
def Socket_write (w : World) (s : SockId) (data : Bytes) : World :=
  (w.modify s fun k => { k with written := k.written ++ [data] }).record (.write s data)

/-- A call `s.end(data, null, cb)`: hands over the last data, marks the socket
ended and keeps `cb` to run when the stream has finished. -/
def Socket_end (w : World) (s : SockId) (data : Bytes) (cb : Listener) : World :=
  (w.modify s fun k =>
    { k with
      written := k.written ++ [data]
      ended := true
      listeners := Function.update k.listeners .finish (k.listeners .finish ++ [cb]) }).record
    (.endWith s data)

/-- A call `s.destroy()`; on a destroyed socket the flag stays set. -/
def Socket_destroy (w : World) (s : SockId) : World :=
  (w.modify s fun k => { k with destroyed := true }).record (.destroy s)

/-- A call `src.pipe(dst)`. -/
def Socket_pipe (w : World) (src dst : SockId) : World :=
  (w.modify src fun k => { k with pipes := k.pipes ++ [dst] }).record (.pipe src dst)

/-- The check `validatePort` that `connect` of Node makes on its port: a
string that is empty, or a number above 65535, is refused. -/
def validatePort : Option Nat → Bool
  | some p => decide (p ≤ 65535)
  | none => false

/-- A call `s.connect(port, host)`.  On a port that `validatePort` refuses the
call throws `ERR_SOCKET_BAD_PORT`; index.js has no handler around its call
(index.js 205), so the exception is uncaught and the process exits. -/
def Socket_connect (w : World) (s : SockId) (port : Option Nat) (host : String) : World :=
  let w := (w.modify s fun k => { k with connectArgs := k.connectArgs ++ [(port, host)] }).record
    (.connect s port host)
  if validatePort port then w
  else { w.record (.uncaught "ERR_SOCKET_BAD_PORT") with crashed := true }

/-- The expression `new tls.TLSSocket()`: a fresh socket object at the next
free index. -/
def newTLSSocket (w : World) : World × SockId :=
  (({ w with socks := Function.update w.socks w.nextSock {}
             nextSock := w.nextSock + 1 } : World).record (.newTLSSocket w.nextSock),
   w.nextSock)

/-- Data arriving on `s`: every destination of a `pipe` from `s` gets it
written. -/
def deliver (w : World) (s : SockId) (chunk : Bytes) : World :=
  (w.socks s).pipes.foldl (fun acc d => Socket_write acc d chunk) w

/-! ## JavaScript expressions -/

/-- A template substitution of a number or `undefined`. -/
def showNum : Option Nat → String
  | some n => toString n
  | none => "undefined"

/-- A template substitution of a string or `undefined`. -/
def showStr : Option String → String
  | some s => s
  | none => "undefined"

/-- The string the getter `url.port` returns. -/
def URL.portString (u : URL) : String :=
  match u.port with
  | some p => toString p
  | none => ""

/-- The expression `a || b` on an optional string: `undefined` and the empty
string are falsy. -/
def jsOr (a b : Option String) : Option String :=
  match a with
  | some s => if s = "" then b else some s
  | none => b

/-- The expression `a | b` on non-negative integers: both operands go through
ToInt32, the bits are or-ed and the result is read as a signed 32-bit
integer. -/
def jsBitOr (a b : Nat) : Int :=
  let bits : Nat := (a % 2 ^ 32) ||| (b % 2 ^ 32)
  if bits < 2 ^ 31 then (bits : Int) else (bits : Int) - 2 ^ 32

/-- The number a port string converts to in `url.port | DEFAULT_PORT`: the
empty string converts to 0. -/
def URL.portNumber (u : URL) : Nat :=
  u.port.getD 0

/-- The setter `url.port = v` for a number `v`, by the URL Standard.  Its first
step: if the URL cannot have a username, password or port, which is so when
its host is null or the empty string, then return.  Else the digits of `v` are
parsed in the port state, which fails, leaving the port as it was, when they
do not give a number up to 65535 (a negative `v` starts with a minus sign),
and else stores the number.  The scheme `whatwgsux` is not special, so it has
no default port that would be stored as null. -/
def URL.setPort (u : URL) (v : Int) : URL :=
  if u.hostname = "" then u
  else if 0 ≤ v ∧ v ≤ 65535 then { u with port := some v.toNat }
  else u

/-- The UTF-16 code units of one character. -/
def utf16Units (c : Char) : List Nat :=
  if c.toNat < 65536 then [c.toNat]
  else [55296 + (c.toNat - 65536) / 1024, 56320 + (c.toNat - 65536) % 1024]

/-- The expression `Buffer.from(s, "ascii")`: one byte per UTF-16 code unit,
its low eight bits. -/
def Buffer_from_ascii (s : String) : Bytes :=
  (s.toList.flatMap utf16Units).map (· % 256)

/-- The expression `content.join(sep)`. -/
def join (sep : String) : List String → String
  | [] => ""
  | [a] => a
  | a :: b :: rest => a ++ sep ++ join sep (b :: rest)

/-! ## The program -/

/-- The function `socket_replyHTTP` (index.js 56-75), with `this` explicit.  The
code is a non-negative integer below 10^21, which a template literal renders
in decimal digits. -/
def socket_replyHTTP (env : Platform) (w : World) (this : SockId) (close : Bool)
    (httpCode : Nat) (httpMessage : Option String) : World :=
  let httpMessage := jsOr httpMessage (env.STATUS_CODES httpCode)
  let content := ["HTTP/1.1 " ++ toString httpCode ++ " " ++ showStr httpMessage]
  let content := if close then content ++ [HDR_CONNECTION_CLOSE] else content
  let content := content ++ [CRLF]
  let resp := Buffer_from_ascii (join CRLF content)
  if close then Socket_end w this resp (.destroySelf this)
  else Socket_write w this resp

/-- The function `twoWayPipe` (index.js 84-91). -/
def twoWayPipe (w : World) (stm1 stm2 : SockId) : World :=
  let w := Socket_pipe w stm1 stm2
  let w := Socket_pipe w stm2 stm1
  let w := Socket_on w stm1 .close (.destroyOther stm2)
  Socket_on w stm2 .close (.destroyOther stm1)

/-- The function `createOutTLSSock` (index.js 100-131); the logger is the
trace. -/
def createOutTLSSock (w : World) (inSocket : SockId) : World × SockId :=
  let (w, res) := newTLSSocket w
  let w := w.modify res fun k => { k with inSocket := some inSocket }
  let w := Socket_on w res .connect .tunnelConnected
  let w := Socket_on w res .close .tunnelClosed
  let w := Socket_on w res .error .tunnelError
  let w := Socket_on w res .connect .tunnelPipe
  (w, res)

/-- The expression `this.inSocket.connID`; where `inSocket` is not set, which
`createOutTLSSock` excludes, it is rendered as `undefined`. -/
def inSocketConnID (w : World) (this : SockId) : Option Nat :=
  (w.socks this).inSocket.bind fun i => (w.socks i).connID

/-- The body of a registered function, run with `this` and the event. -/
def runListener (env : Platform) (w : World) (this : SockId) (ev : Event) :
    Listener → World
  | .tunnelConnected =>
    logger w .info ("Tunnel #" ++ showNum (inSocketConnID w this) ++ " connected to dest "
      ++ showStr (w.socks this).remoteAddress)
  | .tunnelClosed =>
    logger w .info ("Tunnel #" ++ showNum (inSocketConnID w this) ++ " closed")
  | .tunnelError =>
    match ev with
    | .error err =>
      logger w .warn ("Tunnel #" ++ showNum (inSocketConnID w this) ++ " error: " ++ err)
    | _ =>
      logger w .warn ("Tunnel #" ++ showNum (inSocketConnID w this) ++ " error: undefined")
  | .tunnelPipe =>
    match (w.socks this).inSocket with
    | some i =>
      let w := twoWayPipe w this i
      logger w .info ("Tunnel #" ++ showNum (inSocketConnID w this) ++ " ready")
    | none => w
  | .destroyOther other => Socket_destroy w other
  | .destroySelf self => Socket_destroy w self
  | .connClosed socket =>
    logger w .trace ("Connection #" ++ showNum (w.socks socket).connID ++ " closed")
  | .connError socket =>
    match ev with
    | .error err =>
      logger w .trace ("Connection #" ++ showNum (w.socks socket).connID ++ " error: " ++ err)
    | _ =>
      logger w .trace
        ("Connection #" ++ showNum (w.socks socket).connID ++ " error: undefined")
  | .replyEstablished socket head =>
    let w := socket_replyHTTP env w socket false STATUS_CODE_200 (some "Connection Established")
    match head with
    | some h => Socket_write w this h
    | none => w

/-- The runtime emits `ev` on socket `s`: the listeners registered for it at
that moment run in registration order. -/
def emit (env : Platform) (w : World) (s : SockId) (ev : Event) : World :=
  ((w.socks s).listeners ev.name).foldl (fun acc l => runListener env acc s ev l) w

/-- The server right after `HTTPProxyServer` returned (index.js 140-144): no
socket yet, `connID` is 1. -/
def HTTPProxyServer : World :=
  { socks := fun _ => {}, nextSock := 0, connID := 1, trace := [], crashed := false }

/-- The listener of the server event `connection` (index.js 151-163).  The
assignment of `replyHTTP` makes `socket_replyHTTP` callable on the socket. -/
def HTTPProxyServer.onConnection (w : World) (socket : SockId) : World :=
  let w := logger w .info ("Connection #" ++ toString w.connID ++ " accepted on port")
  let w := w.modify socket fun k => { k with connID := some w.connID }
  let w := { w with connID := w.connID + 1 }
  let w := Socket_on w socket .close (.connClosed socket)
  Socket_on w socket .error (.connError socket)

/-- The runtime accepts a TCP connection: a fresh socket object, on which the
server event `connection` is emitted. -/
def accept (w : World) : World × SockId :=
  (HTTPProxyServer.onConnection
    { w with socks := Function.update w.socks w.nextSock {}, nextSock := w.nextSock + 1 }
    w.nextSock,
   w.nextSock)

/-- The listener of the server event `request` (index.js 166-173);
`resp.socket` is `socket`. -/
def HTTPProxyServer.onRequest (env : Platform) (w : World) (method : String)
    (socket : SockId) : World :=
  let w := logger w .warn ("Connection #" ++ toString w.connID ++ ", wrong request " ++ method)
  socket_replyHTTP env w socket true STATUS_CODE_405 none

/-- The listener of the server event `connect` (index.js 175-206). -/
def HTTPProxyServer.onConnect (env : Platform) (w : World) (reqUrl : String) (socket : SockId)
    (head : Option Bytes) : World :=
  match env.parseURL ("whatwgsux://" ++ reqUrl) with
  | none =>
    let w := logger w .warn
      ("Connection #" ++ showNum (w.socks socket).connID ++ ", invalid url " ++ reqUrl)
    socket_replyHTTP env w socket true STATUS_CODE_405 (some "Invalid URL")
  | some url =>
    let url := url.setPort (jsBitOr url.portNumber DEFAULT_PORT)
    let w := logger w .info
      ("Connection #" ++ showNum (w.socks socket).connID ++ ", establishing tunnel to "
        ++ url.hostname ++ ":" ++ url.portString)
    let (w, outTLSSock) := createOutTLSSock w socket
    let w := Socket_on w outTLSSock .connect (.replyEstablished socket head)
    let w := logger w .trace
      ("Tunnel #" ++ showNum (w.socks socket).connID ++ ", connecting to "
        ++ url.hostname ++ ":" ++ url.portString)
    Socket_connect w outTLSSock url.port url.hostname

/-- The routing of the HTTP server of Node: a request with method CONNECT is
emitted as `connect`, any other as `request`. -/
def serverDispatch (env : Platform) (w : World) (method reqUrl : String) (socket : SockId)
    (head : Option Bytes) : World :=
  if method = "CONNECT" then HTTPProxyServer.onConnect env w reqUrl socket head
  else HTTPProxyServer.onRequest env w method socket

/-! ## Reading a trace -/

/-- Whether an effect is a log line. -/
def Effect.isLog : Effect → Bool
  | .log _ _ => true
  | _ => false

/-- The effects of a trace that are not log lines. -/
def actions (t : List Effect) : List Effect :=
  t.filter fun e => !e.isLog

/-- The effects performed on the way from world `w` to the later world `w2`. -/
def World.since (w2 w : World) : List Effect :=
  w2.trace.drop w.trace.length

/-- The response text as the specification words it: the status line, then
the line `Connection: close` when the connection is to be closed, then the
empty line. -/
def responseText (code : Nat) (message : String) (close : Bool) : String :=
  "HTTP/1.1 " ++ toString code ++ " " ++ message ++ "\r\n"
    ++ (if close then "Connection: close\r\n" else "") ++ "\r\n"

/-! ## A concrete platform for the examples -/

/-- The table `http.STATUS_CODES` of Node. -/
def http_STATUS_CODES : Nat → Option String
  | 100 => some "Continue"
  | 101 => some "Switching Protocols"
  | 102 => some "Processing"
  | 103 => some "Early Hints"
  | 200 => some "OK"
  | 201 => some "Created"
  | 202 => some "Accepted"
  | 203 => some "Non-Authoritative Information"
  | 204 => some "No Content"
  | 205 => some "Reset Content"
  | 206 => some "Partial Content"
  | 207 => some "Multi-Status"
  | 208 => some "Already Reported"
  | 226 => some "IM Used"
  | 300 => some "Multiple Choices"
  | 301 => some "Moved Permanently"
  | 302 => some "Found"
  | 303 => some "See Other"
  | 304 => some "Not Modified"
  | 305 => some "Use Proxy"
  | 307 => some "Temporary Redirect"
  | 308 => some "Permanent Redirect"
  | 400 => some "Bad Request"
  | 401 => some "Unauthorized"
  | 402 => some "Payment Required"
  | 403 => some "Forbidden"
  | 404 => some "Not Found"
  | 405 => some "Method Not Allowed"
  | 406 => some "Not Acceptable"
  | 407 => some "Proxy Authentication Required"
  | 408 => some "Request Timeout"
  | 409 => some "Conflict"
  | 410 => some "Gone"
  | 411 => some "Length Required"
  | 412 => some "Precondition Failed"
  | 413 => some "Payload Too Large"
  | 414 => some "URI Too Long"
  | 415 => some "Unsupported Media Type"
  | 416 => some "Range Not Satisfiable"
  | 417 => some "Expectation Failed"
  | 418 => some "I\x27m a Teapot"
  | 421 => some "Misdirected Request"
  | 422 => some "Unprocessable Entity"
  | 423 => some "Locked"
  | 424 => some "Failed Dependency"
  | 425 => some "Too Early"
  | 426 => some "Upgrade Required"
  | 428 => some "Precondition Required"
  | 429 => some "Too Many Requests"
  | 431 => some "Request Header Fields Too Large"
  | 451 => some "Unavailable For Legal Reasons"
  | 500 => some "Internal Server Error"
  | 501 => some "Not Implemented"
  | 502 => some "Bad Gateway"
  | 503 => some "Service Unavailable"
  | 504 => some "Gateway Timeout"
  | 505 => some "HTTP Version Not Supported"
  | 506 => some "Variant Also Negotiates"
  | 507 => some "Insufficient Storage"
  | 508 => some "Loop Detected"
  | 509 => some "Bandwidth Limit Exceeded"
  | 510 => some "Not Extended"
  | 511 => some "Network Authentication Required"
  | _ => none

/-- What `new URL(s)` gives in Node on the inputs the examples use: targets
with a port, a target without one, the target `/x`, which has no host (a URL
of a scheme that is not special may have an empty host, and then has no port:
`new URL("whatwgsux:///x")` has the hostname `""`, the port `""` and the
pathname `/x`), and every other input, among them the malformed target
`:::::bad` of the specification, on which it throws. -/
def exampleURL : String → Option URL
  | "whatwgsux://example.test:8080" => some { hostname := "example.test", port := some 8080 }
  | "whatwgsux://example.test:443" => some { hostname := "example.test", port := some 443 }
  | "whatwgsux://example.test" => some { hostname := "example.test", port := none }
  | "whatwgsux:///x" => some { hostname := "", port := none }
  | _ => none

/-- The platform of the examples. -/
def node : Platform :=
  { STATUS_CODES := http_STATUS_CODES, parseURL := exampleURL }

/-- The world of the examples: the server has accepted one connection, which
is socket 0 with `connID` 1; the next socket object will be socket 1. -/
def accepted : World :=
  (accept HTTPProxyServer).1

/-- The bytes `socket_replyHTTP` sends, by the response text of the
specification. -/
def replyBytes (env : Platform) (code : Nat) (message : Option String) (close : Bool) : Bytes :=
  Buffer_from_ascii
    (responseText code (showStr (jsOr message (env.STATUS_CODES code))) close)

/-- The data handed to `write` and `end` in a trace, each with its socket. -/
def writes (t : List Effect) : List (SockId × Bytes) :=
  t.filterMap fun e =>
    match e with
    | .write s d => some (s, d)
    | .endWith s d => some (s, d)
    | _ => none

/-! ## The inputs of the program -/

/-- One input to the program: the runtime emits an event on a socket, data
arrives on a socket, a TCP connection is accepted, or a request arrives. -/
inductive Step
  | event (s : SockId) (ev : Event)
  | data (s : SockId) (chunk : Bytes)
  | connection
  | request (method reqUrl : String) (socket : SockId) (head : Option Bytes)
  deriving DecidableEq

/-- The program reacts to one input; a process that has exited reacts to
nothing. -/
def step (env : Platform) (w : World) (st : Step) : World :=
  if w.crashed then w
  else
    match st with
    | .event s ev => emit env w s ev
    | .data s chunk => deliver w s chunk
    | .connection => (accept w).1
    | .request method reqUrl socket head => serverDispatch env w method reqUrl socket head

/-- The program reacts to a sequence of inputs. -/
def run (env : Platform) (w : World) (steps : List Step) : World :=
  steps.foldl (step env) w

/-- A world of the examples with a tunnel at work: the server has accepted
socket 0, which asked for a tunnel, and its outbound socket 1 has connected;
then the server has accepted socket 2.  The next socket object will be
socket 3. -/
def busy : World :=
  (accept (run node HTTPProxyServer
    [.connection, .request "CONNECT" "example.test:8080" 0 (some []), .event 1 .connect])).1

/-! ## What the program never undoes -/

/-- Nothing is taken back between `w` and `w2`: every socket keeps its
listeners and its `destroyed` flag, its `inSocket` and its listeners of
`connect` are the same, no socket object is created and the trace is
extended. -/
structure Grows (w w2 : World) : Prop where
  next : w2.nextSock = w.nextSock
  listeners : ∀ s n l, l ∈ (w.socks s).listeners n → l ∈ (w2.socks s).listeners n
  destroyed : ∀ s, (w.socks s).destroyed = true → (w2.socks s).destroyed = true
  trace : ∃ t, w2.trace = w.trace ++ t
  inSocket : ∀ s, (w2.socks s).inSocket = (w.socks s).inSocket
  connects : ∀ s, (w2.socks s).listeners .connect = (w.socks s).listeners .connect

/-- Between `w` and `w2` the socket objects that exist in `w` keep their
listeners and their `destroyed` flag, and their `inSocket` and their listeners
of `connect` are the same; new socket objects may appear. -/
structure Extends (w w2 : World) : Prop where
  next : w.nextSock ≤ w2.nextSock
  listeners : ∀ s, s < w.nextSock →
    ∀ n l, l ∈ (w.socks s).listeners n → l ∈ (w2.socks s).listeners n
  destroyed : ∀ s, s < w.nextSock → (w.socks s).destroyed = true → (w2.socks s).destroyed = true
  inSocket : ∀ s, s < w.nextSock → (w2.socks s).inSocket = (w.socks s).inSocket
  connects : ∀ s, s < w.nextSock →
    (w2.socks s).listeners .connect = (w.socks s).listeners .connect

/-! ## A tunnel that waits for its handshake -/

/-- Whether the callback `l`, registered on socket `s` whose `inSocket` is
`i`, leaves the sockets `c` and `o` alone when it runs: it neither pipes them
nor hands them data. -/
def Harmless (c o s : SockId) (i : Option SockId) : Listener → Prop
  | .tunnelPipe => s ≠ c ∧ s ≠ o ∧ i ≠ some c ∧ i ≠ some o
  | .replyEstablished k _ => s ≠ c ∧ s ≠ o ∧ k ≠ c ∧ k ≠ o
  | _ => True

/-- The client socket `c` and the outbound socket `o` of a tunnel whose
handshake is pending: both exist, no socket pipes into them, and no callback
but those for `connect` on `o` would pipe them or hand them data. -/
structure Isolated (w : World) (c o : SockId) : Prop where
  clt : c < w.nextSock
  olt : o < w.nextSock
  pipes : ∀ s d, d ∈ (w.socks s).pipes → d ≠ c ∧ d ≠ o
  lis : ∀ s n l, l ∈ (w.socks s).listeners n →
    (s = o ∧ n = .connect) ∨ Harmless c o s (w.socks s).inSocket l

/-- The world in which a CONNECT request arrives on the client socket `c`,
before the outbound socket `o` exists: `c` exists, and no other socket pipes
into `c` or `o` or has a callback that would pipe them or hand them data. -/
structure Unreferenced (w : World) (c o : SockId) : Prop where
  clt : c < w.nextSock
  pipes : ∀ s d, s ≠ o → d ∈ (w.socks s).pipes → d ≠ c ∧ d ≠ o
  lis : ∀ s n l, s ≠ o → l ∈ (w.socks s).listeners n → Harmless c o s (w.socks s).inSocket l

/-- The inputs that can come in while the handshake of the outbound socket `o`
for the client socket `c` is pending: any but the `connect` event of `o`, and
any request but one on `c` (Node has taken the socket of a CONNECT request
away from its HTTP parser) or on `o` (a socket the server did not accept). -/
def Calm (c o : SockId) : Step → Prop
  | .event s ev => ¬ (s = o ∧ ev = .connect)
  | .request _ _ s _ => s ≠ c ∧ s ≠ o
  | _ => True

/-- From `w` to `w2` the tunnel of `c` and `o` keeps waiting: it is isolated
in `w2`, and the data handed to `c` and to `o` is what it was in `w`. -/
structure Pending (w w2 : World) (c o : SockId) : Prop where
  iso : Isolated w2 c o
  cdata : (w2.socks c).written = (w.socks c).written
  odata : (w2.socks o).written = (w.socks o).written

/-! ## The worlds the server can be in -/

/-- No socket refers to a socket object that does not exist yet: the indices
from `nextSock` on carry no pipe, no `inSocket` and no callback, and every
pipe destination, every `inSocket` and every client captured by a callback
that replies is the index of an existing socket. -/
structure Sound (w : World) : Prop where
  fresh : ∀ s, w.nextSock ≤ s →
    (w.socks s).pipes = [] ∧ (w.socks s).inSocket = none ∧ ∀ n, (w.socks s).listeners n = []
  pipes : ∀ s d, d ∈ (w.socks s).pipes → d < w.nextSock
  ins : ∀ s i, (w.socks s).inSocket = some i → i < w.nextSock
  reply : ∀ s n k h, Listener.replyEstablished k h ∈ (w.socks s).listeners n → k < w.nextSock

/-- An input the runtime can deliver in `w`: a request arrives on a socket
that exists. -/
def Step.deliverable (w : World) : Step → Prop
  | .request _ _ s _ => s < w.nextSock
  | _ => True

/-- A sequence of inputs the runtime can deliver, one after the other, from
`w` on. -/
def Deliverable (env : Platform) : World → List Step → Prop
  | _, [] => True
  | w, st :: rest => st.deliverable w ∧ Deliverable env (step env w st) rest

/-! ## Lemmas: the response writer -/

theorem socket_replyHTTP_close (env : Platform) (w : World) (this : SockId) (code : Nat)
    (message : Option String) :
    socket_replyHTTP env w this true code message
      = Socket_end w this (replyBytes env code message true) (.destroySelf this) := by
  simp [socket_replyHTTP, replyBytes, responseText, join, CRLF, HDR_CONNECTION_CLOSE,
    String.append_assoc]

theorem socket_replyHTTP_open (env : Platform) (w : World) (this : SockId) (code : Nat)
    (message : Option String) :
    socket_replyHTTP env w this false code message
      = Socket_write w this (replyBytes env code message false) := by
  simp [socket_replyHTTP, replyBytes, responseText, join, CRLF, String.append_assoc]

theorem invalid_url_text :
    responseText STATUS_CODE_405 "Invalid URL" true
      = "HTTP/1.1 405 Invalid URL\r\nConnection: close\r\n\r\n" := by
  decide

theorem method_not_allowed_text :
    responseText STATUS_CODE_405 "Method Not Allowed" true
      = "HTTP/1.1 405 Method Not Allowed\r\nConnection: close\r\n\r\n" := by
  decide

theorem established_text :
    responseText STATUS_CODE_200 "Connection Established" false
      = "HTTP/1.1 200 Connection Established\r\n\r\n" := by
  decide

theorem established_bytes (env : Platform) :
    replyBytes env STATUS_CODE_200 (some "Connection Established") false
      = Buffer_from_ascii "HTTP/1.1 200 Connection Established\r\n\r\n" := by
  simp [replyBytes, jsOr, showStr, established_text]

theorem invalid_url_bytes (env : Platform) :
    replyBytes env STATUS_CODE_405 (some "Invalid URL") true
      = Buffer_from_ascii "HTTP/1.1 405 Invalid URL\r\nConnection: close\r\n\r\n" := by
  simp [replyBytes, jsOr, showStr, invalid_url_text]

/-! ## Lemmas: what the callbacks never undo -/

theorem Grows.same (w : World) : Grows w w :=
  ⟨rfl, fun _ _ _ h => h, fun _ h => h, ⟨[], by simp⟩, fun _ => rfl, fun _ => rfl⟩

theorem Grows.andThen {a b c : World} (h1 : Grows a b) (h2 : Grows b c) : Grows a c := by
  obtain ⟨t1, e1⟩ := h1.trace
  obtain ⟨t2, e2⟩ := h2.trace
  exact ⟨h2.next.trans h1.next, fun s n l h => h2.listeners s n l (h1.listeners s n l h),
    fun s h => h2.destroyed s (h1.destroyed s h),
    ⟨t1 ++ t2, by rw [e2, e1, List.append_assoc]⟩,
    fun s => (h2.inSocket s).trans (h1.inSocket s),
    fun s => (h2.connects s).trans (h1.connects s)⟩

theorem grows_record (w : World) (e : Effect) : Grows w (w.record e) :=
  ⟨rfl, fun _ _ _ h => h, fun _ h => h, ⟨[e], rfl⟩, fun _ => rfl, fun _ => rfl⟩

theorem grows_modify (w : World) (s : SockId) (f : Socket → Socket)
    (hl : ∀ k n l, l ∈ k.listeners n → l ∈ (f k).listeners n)
    (hd : ∀ k, k.destroyed = true → (f k).destroyed = true)
    (hi : ∀ k, (f k).inSocket = k.inSocket)
    (hc : ∀ k, (f k).listeners .connect = k.listeners .connect) :
    Grows w (w.modify s f) := by
  refine ⟨rfl, ?_, ?_, ⟨[], by simp [World.modify]⟩, ?_, ?_⟩
  · intro t n l h
    by_cases hts : t = s
    · subst hts; simpa [World.modify] using hl _ n l h
    · simpa [World.modify, Function.update_apply, hts] using h
  · intro t h
    by_cases hts : t = s
    · subst hts; simpa [World.modify] using hd _ h
    · simpa [World.modify, Function.update_apply, hts] using h
  · intro t
    by_cases hts : t = s
    · subst hts; simpa [World.modify] using hi _
    · simp [World.modify, Function.update_apply, hts]
  · intro t
    by_cases hts : t = s
    · subst hts; simpa [World.modify] using hc _
    · simp [World.modify, Function.update_apply, hts]

theorem grows_logger (w : World) (level : LogLevel) (msg : String) :
    Grows w (logger w level msg) :=
  grows_record w _

theorem grows_on (w : World) (s : SockId) (n : EventName) (l : Listener)
    (hn : n ≠ .connect) : Grows w (Socket_on w s n l) := by
  refine (grows_modify w s _ ?_ ?_ ?_ ?_).andThen (grows_record _ _)
  · intro k m l2 h
    by_cases hm : m = n
    · subst hm; simp [h]
    · simpa [Function.update_apply, hm] using h
  · intro k h; exact h
  · intro k; rfl
  · intro k
    have : EventName.connect ≠ n := fun e => hn e.symm
    simp [Function.update_apply, this]

theorem grows_write (w : World) (s : SockId) (d : Bytes) : Grows w (Socket_write w s d) := by
  unfold Socket_write
  refine (grows_modify w s _ ?_ ?_ ?_ ?_).andThen (grows_record _ _)
  · intro k n l h; exact h
  · intro k h; exact h
  · intro k; rfl
  · intro k; rfl

theorem grows_end (w : World) (s : SockId) (d : Bytes) (cb : Listener) :
    Grows w (Socket_end w s d cb) := by
  refine (grows_modify w s _ ?_ ?_ ?_ ?_).andThen (grows_record _ _)
  · intro k m l2 h
    by_cases hm : m = .finish
    · subst hm; simp [h]
    · simpa [Function.update_apply, hm] using h
  · intro k h; exact h
  · intro k; rfl
  · intro k; simp [Function.update_apply]

theorem grows_destroy (w : World) (s : SockId) : Grows w (Socket_destroy w s) := by
  unfold Socket_destroy
  refine (grows_modify w s _ ?_ ?_ ?_ ?_).andThen (grows_record _ _)
  · intro k n l h; exact h
  · intro k _; rfl
  · intro k; rfl
  · intro k; rfl

theorem grows_pipe (w : World) (a b : SockId) : Grows w (Socket_pipe w a b) := by
  unfold Socket_pipe
  refine (grows_modify w a _ ?_ ?_ ?_ ?_).andThen (grows_record _ _)
  · intro k n l h; exact h
  · intro k h; exact h
  · intro k; rfl
  · intro k; rfl

theorem grows_reply (env : Platform) (w : World) (s : SockId) (close : Bool) (code : Nat)
    (message : Option String) : Grows w (socket_replyHTTP env w s close code message) := by
  cases close
  · rw [socket_replyHTTP_open]; exact grows_write _ _ _
  · rw [socket_replyHTTP_close]; exact grows_end _ _ _ _

theorem grows_twoWayPipe (w : World) (a b : SockId) : Grows w (twoWayPipe w a b) :=
  (((grows_pipe w a b).andThen (grows_pipe _ b a)).andThen
    (grows_on _ _ _ _ (by decide))).andThen (grows_on _ _ _ _ (by decide))

theorem grows_runListener (env : Platform) (w : World) (this : SockId) (ev : Event)
    (l : Listener) : Grows w (runListener env w this ev l) := by
  cases l with
  | tunnelConnected => exact grows_logger _ _ _
  | tunnelClosed => exact grows_logger _ _ _
  | tunnelError => cases ev <;> exact grows_logger _ _ _
  | tunnelPipe =>
    simp only [runListener]
    cases (w.socks this).inSocket with
    | none => exact Grows.same w
    | some i => exact (grows_twoWayPipe w this i).andThen (grows_logger _ _ _)
  | destroyOther other => exact grows_destroy _ _
  | destroySelf self => exact grows_destroy _ _
  | connClosed socket => exact grows_logger _ _ _
  | connError socket => cases ev <;> exact grows_logger _ _ _
  | replyEstablished socket head =>
    cases head with
    | none => simp only [runListener]; exact grows_reply _ _ _ _ _ _
    | some h =>
      simp only [runListener]
      exact (grows_reply _ _ _ _ _ _).andThen (grows_write _ _ _)

theorem grows_foldl (env : Platform) (this : SockId) (ev : Event) (ls : List Listener)
    (w : World) : Grows w (ls.foldl (fun acc l => runListener env acc this ev l) w) := by
  induction ls generalizing w with
  | nil => exact Grows.same w
  | cons l ls ih => exact (grows_runListener env w this ev l).andThen (ih _)

theorem grows_emit (env : Platform) (w : World) (s : SockId) (ev : Event) :
    Grows w (emit env w s ev) :=
  grows_foldl env s ev _ w

theorem grows_deliver_aux (chunk : Bytes) (ds : List SockId) (w : World) :
    Grows w (ds.foldl (fun acc d => Socket_write acc d chunk) w) := by
  induction ds generalizing w with
  | nil => exact Grows.same w
  | cons d ds ih => exact (grows_write w d chunk).andThen (ih _)

theorem grows_deliver (w : World) (s : SockId) (chunk : Bytes) : Grows w (deliver w s chunk) :=
  grows_deliver_aux chunk _ w

/-! ## Lemmas: socket objects survive every input -/

theorem Extends.still (w : World) : Extends w w :=
  ⟨le_refl _, fun _ _ _ _ h => h, fun _ _ h => h, fun _ _ => rfl, fun _ _ => rfl⟩

theorem Extends.andAlso {a b c : World} (h1 : Extends a b) (h2 : Extends b c) : Extends a c :=
  ⟨le_trans h1.next h2.next,
    fun s hs n l h => h2.listeners s (lt_of_lt_of_le hs h1.next) n l (h1.listeners s hs n l h),
    fun s hs h => h2.destroyed s (lt_of_lt_of_le hs h1.next) (h1.destroyed s hs h),
    fun s hs => (h2.inSocket s (lt_of_lt_of_le hs h1.next)).trans (h1.inSocket s hs),
    fun s hs => (h2.connects s (lt_of_lt_of_le hs h1.next)).trans (h1.connects s hs)⟩

theorem Grows.toExtends {w w2 : World} (h : Grows w w2) : Extends w w2 :=
  ⟨le_of_eq h.next.symm, fun s _ n l hl => h.listeners s n l hl, fun s _ hd => h.destroyed s hd,
    fun s _ => h.inSocket s, fun s _ => h.connects s⟩

theorem extends_accept (w : World) : Extends w (accept w).1 := by
  refine ⟨?_, ?_, ?_, ?_, ?_⟩
  · simp [accept, HTTPProxyServer.onConnection, Socket_on, logger, World.modify, World.record]
  · intro s hs n l h
    have hne : s ≠ w.nextSock := Nat.ne_of_lt hs
    simpa [accept, HTTPProxyServer.onConnection, Socket_on, logger, World.modify, World.record,
      Function.update_apply, hne] using h
  · intro s hs h
    have hne : s ≠ w.nextSock := Nat.ne_of_lt hs
    simpa [accept, HTTPProxyServer.onConnection, Socket_on, logger, World.modify, World.record,
      Function.update_apply, hne] using h
  · intro s hs
    have hne : s ≠ w.nextSock := Nat.ne_of_lt hs
    simp [accept, HTTPProxyServer.onConnection, Socket_on, logger, World.modify, World.record,
      Function.update_apply, hne]
  · intro s hs
    have hne : s ≠ w.nextSock := Nat.ne_of_lt hs
    simp [accept, HTTPProxyServer.onConnection, Socket_on, logger, World.modify, World.record,
      Function.update_apply, hne]

theorem extends_onRequest (env : Platform) (w : World) (method : String) (socket : SockId) :
    Extends w (HTTPProxyServer.onRequest env w method socket) := by
  unfold HTTPProxyServer.onRequest
  exact ((grows_logger _ _ _).andThen (grows_reply _ _ _ _ _ _)).toExtends

theorem grows_connect (w : World) (s : SockId) (port : Option Nat) (host : String) :
    Grows w (Socket_connect w s port host) := by
  have h1 : Grows w ((w.modify s fun k =>
      { k with connectArgs := k.connectArgs ++ [(port, host)] }).record
      (.connect s port host)) := by
    refine (grows_modify w s _ ?_ ?_ ?_ ?_).andThen (grows_record _ _)
    · intro k n l h; exact h
    · intro k h; exact h
    · intro k; rfl
    · intro k; rfl
  unfold Socket_connect
  split
  · exact h1
  · exact h1.andThen
      ⟨rfl, fun _ _ _ h => h, fun _ h => h, ⟨[.uncaught "ERR_SOCKET_BAD_PORT"], rfl⟩,
        fun _ => rfl, fun _ => rfl⟩

theorem extends_onConnect (env : Platform) (w : World) (reqUrl : String) (socket : SockId)
    (head : Option Bytes) : Extends w (HTTPProxyServer.onConnect env w reqUrl socket head) := by
  unfold HTTPProxyServer.onConnect
  cases env.parseURL ("whatwgsux://" ++ reqUrl) with
  | none => exact ((grows_logger _ _ _).andThen (grows_reply _ _ _ _ _ _)).toExtends
  | some url =>
    simp only [createOutTLSSock, newTLSSocket]
    refine Extends.andAlso ?_ (Grows.toExtends (grows_connect _ _ _ _))
    refine ⟨?_, ?_, ?_, ?_, ?_⟩
    · simp [Socket_on, logger, World.modify, World.record]
    · intro s hs n l h
      have hne : s ≠ w.nextSock := Nat.ne_of_lt hs
      simpa [Socket_on, logger, World.modify, World.record, Function.update_apply, hne] using h
    · intro s hs h
      have hne : s ≠ w.nextSock := Nat.ne_of_lt hs
      simpa [Socket_on, logger, World.modify, World.record, Function.update_apply, hne] using h
    · intro s hs
      have hne : s ≠ w.nextSock := Nat.ne_of_lt hs
      simp [Socket_on, logger, World.modify, World.record, Function.update_apply, hne]
    · intro s hs
      have hne : s ≠ w.nextSock := Nat.ne_of_lt hs
      simp [Socket_on, logger, World.modify, World.record, Function.update_apply, hne]

theorem extends_step (env : Platform) (w : World) (st : Step) : Extends w (step env w st) := by
  unfold step
  split
  · exact Extends.still w
  · cases st with
    | event s ev => exact (grows_emit env w s ev).toExtends
    | data s chunk => exact (grows_deliver w s chunk).toExtends
    | connection => exact extends_accept w
    | request method reqUrl socket head =>
      simp only [serverDispatch]
      split
      · exact extends_onConnect _ _ _ _ _
      · exact extends_onRequest _ _ _ _

theorem extends_run (env : Platform) (steps : List Step) (w : World) :
    Extends w (run env w steps) := by
  induction steps generalizing w with
  | nil => exact Extends.still w
  | cons st steps ih => exact (extends_step env w st).andAlso (ih _)

theorem run_crashed (env : Platform) (steps : List Step) (w : World) (h : w.crashed = true) :
    run env w steps = w := by
  induction steps with
  | nil => rfl
  | cons st steps ih =>
    have : step env w st = w := by simp [step, h]
    simpa [run, this] using ih

theorem run_append (env : Platform) (w : World) (a b : List Step) :
    run env w (a ++ b) = run env (run env w a) b := by
  simp [run, List.foldl_append]

/-! ## Lemmas: a registered callback runs -/

theorem mem_since (w0 w r : World) (e : Effect) (h1 : ∃ t, w.trace = w0.trace ++ t)
    (h2 : ∃ t, r.trace = (w.trace ++ [e]) ++ t) : e ∈ r.since w0 := by
  obtain ⟨y, hy⟩ := h1
  obtain ⟨x, hx⟩ := h2
  simp [World.since, hx, hy, List.append_assoc]

theorem foldl_destroys (env : Platform) (this : SockId) (ev : Event) (t : SockId)
    (ls : List Listener) (w0 w : World) (hp : ∃ u, w.trace = w0.trace ++ u)
    (h : Listener.destroyOther t ∈ ls) :
    ((ls.foldl (fun acc l => runListener env acc this ev l) w).socks t).destroyed = true
      ∧ Effect.destroy t ∈ (ls.foldl (fun acc l => runListener env acc this ev l) w).since w0 := by
  induction ls generalizing w with
  | nil => simp at h
  | cons l ls ih =>
    simp only [List.foldl_cons]
    by_cases hl : l = .destroyOther t
    · subst hl
      have hg := grows_foldl env this ev ls (runListener env w this ev (.destroyOther t))
      constructor
      · apply hg.destroyed
        simp [runListener, Socket_destroy, World.modify, World.record]
      · apply mem_since w0 w _ _ hp
        simpa [runListener, Socket_destroy, World.modify, World.record] using hg.trace
    · have hm : Listener.destroyOther t ∈ ls := by
        rcases List.mem_cons.1 h with h | h
        · exact absurd h.symm hl
        · exact h
      obtain ⟨u, hu⟩ := hp
      obtain ⟨v, hv⟩ := (grows_runListener env w this ev l).trace
      exact ih _ ⟨u ++ v, by rw [hv, hu, List.append_assoc]⟩ hm

theorem emit_destroys (env : Platform) (w : World) (s : SockId) (ev : Event) (t : SockId)
    (h : Listener.destroyOther t ∈ (w.socks s).listeners ev.name) :
    ((emit env w s ev).socks t).destroyed = true
      ∧ Effect.destroy t ∈ (emit env w s ev).since w :=
  foldl_destroys env s ev t _ w w ⟨[], by simp⟩ h

theorem foldl_writes (chunk : Bytes) (d : SockId) (ds : List SockId) (w0 w : World)
    (hp : ∃ u, w.trace = w0.trace ++ u) (h : d ∈ ds) :
    Effect.write d chunk ∈ (ds.foldl (fun acc x => Socket_write acc x chunk) w).since w0 := by
  induction ds generalizing w with
  | nil => simp at h
  | cons x ds ih =>
    simp only [List.foldl_cons]
    by_cases hx : x = d
    · subst hx
      have hg := grows_deliver_aux chunk ds (Socket_write w x chunk)
      apply mem_since w0 w _ _ hp
      simpa [Socket_write, World.modify, World.record] using hg.trace
    · have hm : d ∈ ds := by
        rcases List.mem_cons.1 h with h | h
        · exact absurd h.symm hx
        · exact h
      obtain ⟨u, hu⟩ := hp
      obtain ⟨v, hv⟩ := (grows_write w x chunk).trace
      exact ih _ ⟨u ++ v, by rw [hv, hu, List.append_assoc]⟩ hm

theorem deliver_writes (w : World) (s d : SockId) (chunk : Bytes) (h : d ∈ (w.socks s).pipes) :
    Effect.write d chunk ∈ (deliver w s chunk).since w :=
  foldl_writes chunk d _ w w ⟨[], by simp⟩ h

theorem twoWayPipe_registers (w : World) (stm1 stm2 : SockId) :
    Listener.destroyOther stm2 ∈ ((twoWayPipe w stm1 stm2).socks stm1).listeners .close
      ∧ Listener.destroyOther stm1 ∈ ((twoWayPipe w stm1 stm2).socks stm2).listeners .close
      ∧ stm2 ∈ ((twoWayPipe w stm1 stm2).socks stm1).pipes
      ∧ stm1 ∈ ((twoWayPipe w stm1 stm2).socks stm2).pipes
      ∧ (twoWayPipe w stm1 stm2).nextSock = w.nextSock := by
  by_cases h : stm1 = stm2
  · subst h
    simp [twoWayPipe, Socket_pipe, Socket_on, World.modify, World.record]
  · have h2 : stm2 ≠ stm1 := fun e => h e.symm
    simp [twoWayPipe, Socket_pipe, Socket_on, World.modify, World.record, Function.update_apply,
      h, h2]

/-! ## Lemmas: the call of `connect` -/

theorem Socket_connect_socks (w : World) (s : SockId) (port : Option Nat) (host : String) :
    (Socket_connect w s port host).socks
      = Function.update w.socks s
          { w.socks s with connectArgs := (w.socks s).connectArgs ++ [(port, host)] } := by
  unfold Socket_connect
  split <;> rfl

theorem Socket_connect_nextSock (w : World) (s : SockId) (port : Option Nat) (host : String) :
    (Socket_connect w s port host).nextSock = w.nextSock := by
  unfold Socket_connect
  split <;> rfl

theorem Socket_connect_trace (w : World) (s : SockId) (port : Option Nat) (host : String) :
    (Socket_connect w s port host).trace
      = w.trace ++ [.connect s port host]
          ++ (if validatePort port = true then [] else [.uncaught "ERR_SOCKET_BAD_PORT"]) := by
  unfold Socket_connect
  split <;> simp [World.record, World.modify]

theorem Socket_connect_crashed (w : World) (s : SockId) (port : Option Nat) (host : String) :
    (Socket_connect w s port host).crashed = (w.crashed || !validatePort port) := by
  unfold Socket_connect
  split <;> simp_all [World.record, World.modify]

/-! ## Lemmas: the tunnel after the handler -/

/-- The outbound socket as the CONNECT handler leaves it, and the sockets it
leaves alone. -/
theorem onConnect_ok_state (env : Platform) (w : World) (reqUrl : String)
    (socket : SockId) (head : Option Bytes) (url : URL)
    (hp : env.parseURL ("whatwgsux://" ++ reqUrl) = some url) :
    (HTTPProxyServer.onConnect env w reqUrl socket head).nextSock = w.nextSock + 1
      ∧ ((HTTPProxyServer.onConnect env w reqUrl socket head).socks w.nextSock).inSocket
          = some socket
      ∧ ((HTTPProxyServer.onConnect env w reqUrl socket head).socks w.nextSock).written = []
      ∧ ((HTTPProxyServer.onConnect env w reqUrl socket head).socks w.nextSock).pipes = []
      ∧ ((HTTPProxyServer.onConnect env w reqUrl socket head).socks w.nextSock).listeners
          .connect = [.tunnelConnected, .tunnelPipe, .replyEstablished socket head]
      ∧ ((HTTPProxyServer.onConnect env w reqUrl socket head).socks w.nextSock).listeners
          .close = [.tunnelClosed]
      ∧ ((HTTPProxyServer.onConnect env w reqUrl socket head).socks w.nextSock).listeners
          .error = [.tunnelError]
      ∧ ((HTTPProxyServer.onConnect env w reqUrl socket head).socks w.nextSock).listeners
          .finish = []
      ∧ ∀ s, s ≠ w.nextSock →
          (HTTPProxyServer.onConnect env w reqUrl socket head).socks s = w.socks s := by
  simp only [HTTPProxyServer.onConnect, hp, createOutTLSSock, newTLSSocket,
    Socket_connect_socks, Socket_connect_nextSock]
  refine ⟨?_, ?_, ?_, ?_, ?_, ?_, ?_, ?_, ?_⟩
  all_goals try simp [Socket_on, logger, World.modify, World.record, Function.update_apply]
  intro s hs
  simp [hs]

/-- The `connect` event on an outbound socket that has the three callbacks of
a tunnel and the client `c` as its `inSocket`, in any world. -/
theorem emit_connect_tunnel (env : Platform) (v : World) (c o : SockId) (head : Option Bytes)
    (hne : c ≠ o)
    (hl : (v.socks o).listeners .connect
      = [.tunnelConnected, .tunnelPipe, .replyEstablished c head])
    (hin : (v.socks o).inSocket = some c) :
    actions ((emit env v o .connect).since v)
        = [ .pipe o c, .pipe c o, .on o .close (.destroyOther c),
            .on c .close (.destroyOther o),
            .write c (Buffer_from_ascii "HTTP/1.1 200 Connection Established\r\n\r\n") ]
          ++ head.toList.map (Effect.write o)
      ∧ ((emit env v o .connect).socks c).written
          = (v.socks c).written
            ++ [Buffer_from_ascii "HTTP/1.1 200 Connection Established\r\n\r\n"]
      ∧ ((emit env v o .connect).socks c).ended = (v.socks c).ended
      ∧ ((emit env v o .connect).socks c).destroyed = (v.socks c).destroyed
      ∧ ((emit env v o .connect).socks o).written
          = (v.socks o).written ++ head.toList
      ∧ ((emit env v o .connect).socks o).listeners .close
          = (v.socks o).listeners .close ++ [.destroyOther c]
      ∧ (emit env v o .connect).nextSock = v.nextSock
      ∧ (emit env v o .connect).crashed = v.crashed := by
  have hne2 : o ≠ c := fun h => hne h.symm
  cases head <;>
  simp [emit, Event.name, hl, hin, runListener, logger, World.modify, World.record,
    Function.update_apply, hne, hne2, inSocketConnID, twoWayPipe, Socket_pipe, Socket_on,
    socket_replyHTTP_open, established_bytes, Socket_write, World.since, actions, Effect.isLog]

/-! ## Lemmas: nothing reaches a tunnel before its handshake -/

theorem Pending.stay {w : World} {c o : SockId} (h : Isolated w c o) : Pending w w c o :=
  ⟨h, rfl, rfl⟩

theorem Pending.followedBy {a b d : World} {c o : SockId} (h1 : Pending a b c o)
    (h2 : Pending b d c o) : Pending a d c o :=
  ⟨h2.iso, h2.cdata.trans h1.cdata, h2.odata.trans h1.odata⟩

theorem pending_of_socks {w w2 : World} {c o : SockId} (h : Isolated w c o)
    (hs : w2.socks = w.socks) (hn : w.nextSock ≤ w2.nextSock) : Pending w w2 c o := by
  refine ⟨⟨lt_of_lt_of_le h.clt hn, lt_of_lt_of_le h.olt hn, ?_, ?_⟩, by rw [hs], by rw [hs]⟩
  · intro s d hd
    rw [hs] at hd
    exact h.pipes s d hd
  · intro s n l hl
    rw [hs] at hl ⊢
    exact h.lis s n l hl

theorem pending_record {w : World} {c o : SockId} (h : Isolated w c o) (e : Effect) :
    Pending w (w.record e) c o :=
  pending_of_socks h rfl (le_refl _)

theorem pending_modify {w : World} {c o : SockId} (h : Isolated w c o) (s : SockId)
    (f : Socket → Socket)
    (hi : (f (w.socks s)).inSocket = (w.socks s).inSocket)
    (hp : ∀ d, d ∈ (f (w.socks s)).pipes → d ∈ (w.socks s).pipes ∨ (d ≠ c ∧ d ≠ o))
    (hl : ∀ n l, l ∈ (f (w.socks s)).listeners n →
      l ∈ (w.socks s).listeners n ∨ Harmless c o s (w.socks s).inSocket l)
    (hw : (s ≠ c ∧ s ≠ o) ∨ (f (w.socks s)).written = (w.socks s).written) :
    Pending w (w.modify s f) c o := by
  refine ⟨⟨h.clt, h.olt, ?_, ?_⟩, ?_, ?_⟩
  · intro t d hd
    by_cases hts : t = s
    · subst hts
      simp only [World.modify, Function.update_same] at hd
      rcases hp d hd with h1 | h1
      · exact h.pipes _ d h1
      · exact h1
    · simp only [World.modify, Function.update_apply, hts, if_false] at hd
      exact h.pipes t d hd
  · intro t n l hm
    by_cases hts : t = s
    · subst hts
      simp only [World.modify, Function.update_same] at hm ⊢
      rw [hi]
      rcases hl n l hm with h1 | h1
      · exact h.lis _ n l h1
      · exact Or.inr h1
    · simp only [World.modify, Function.update_apply, hts, if_false] at hm ⊢
      exact h.lis t n l hm
  · by_cases hcs : c = s
    · subst hcs
      rcases hw with h1 | h1
      · exact absurd rfl h1.1
      · simpa [World.modify] using h1
    · simp [World.modify, Function.update_apply, hcs]
  · by_cases hos : o = s
    · subst hos
      rcases hw with h1 | h1
      · exact absurd rfl h1.2
      · simpa [World.modify] using h1
    · simp [World.modify, Function.update_apply, hos]

theorem pending_logger {w : World} {c o : SockId} (h : Isolated w c o) (level : LogLevel)
    (msg : String) : Pending w (logger w level msg) c o :=
  pending_record h _

theorem pending_destroy {w : World} {c o : SockId} (h : Isolated w c o) (s : SockId) :
    Pending w (Socket_destroy w s) c o := by
  unfold Socket_destroy
  refine (pending_modify h s _ rfl ?_ ?_ (Or.inr rfl)).followedBy (pending_record ?_ _)
  · intro d hd; exact Or.inl hd
  · intro n l hl; exact Or.inl hl
  · exact (pending_modify h s _ rfl (fun d hd => Or.inl hd) (fun n l hl => Or.inl hl)
      (Or.inr rfl)).iso

theorem pending_write {w : World} {c o : SockId} (h : Isolated w c o) (s : SockId) (d : Bytes)
    (hs : s ≠ c ∧ s ≠ o) : Pending w (Socket_write w s d) c o := by
  unfold Socket_write
  have h1 := pending_modify h s (fun k => { k with written := k.written ++ [d] }) rfl
    (fun d hd => Or.inl hd) (fun n l hl => Or.inl hl) (Or.inl hs)
  exact h1.followedBy (pending_record h1.iso _)

theorem pending_pipe {w : World} {c o : SockId} (h : Isolated w c o) (a b : SockId)
    (hb : b ≠ c ∧ b ≠ o) : Pending w (Socket_pipe w a b) c o := by
  unfold Socket_pipe
  have h1 := pending_modify h a (fun k => { k with pipes := k.pipes ++ [b] }) rfl
    (fun d hd => by
      rcases List.mem_append.1 hd with h2 | h2
      · exact Or.inl h2
      · rw [List.mem_singleton.1 h2]; exact Or.inr hb)
    (fun n l hl => Or.inl hl) (Or.inr rfl)
  exact h1.followedBy (pending_record h1.iso _)

theorem pending_on {w : World} {c o : SockId} (h : Isolated w c o) (s : SockId)
    (n : EventName) (l : Listener) (hl : Harmless c o s (w.socks s).inSocket l) :
    Pending w (Socket_on w s n l) c o := by
  unfold Socket_on
  have h1 := pending_modify h s
    (fun k => { k with listeners := Function.update k.listeners n (k.listeners n ++ [l]) }) rfl
    (fun d hd => Or.inl hd)
    (fun m l2 hm => by
      by_cases hmn : m = n
      · subst hmn
        simp only [Function.update_same] at hm
        rcases List.mem_append.1 hm with h2 | h2
        · exact Or.inl h2
        · rw [List.mem_singleton.1 h2]; exact Or.inr hl
      · simp only [Function.update_apply, hmn, if_false] at hm
        exact Or.inl hm)
    (Or.inr rfl)
  exact h1.followedBy (pending_record h1.iso _)

theorem pending_end {w : World} {c o : SockId} (h : Isolated w c o) (s : SockId) (d : Bytes)
    (hs : s ≠ c ∧ s ≠ o) : Pending w (Socket_end w s d (.destroySelf s)) c o := by
  unfold Socket_end
  have h1 := pending_modify h s
    (fun k => { k with
      written := k.written ++ [d]
      ended := true
      listeners := Function.update k.listeners .finish
        (k.listeners .finish ++ [.destroySelf s]) }) rfl
    (fun d hd => Or.inl hd)
    (fun m l2 hm => by
      by_cases hmn : m = .finish
      · subst hmn
        simp only [Function.update_same] at hm
        rcases List.mem_append.1 hm with h2 | h2
        · exact Or.inl h2
        · rw [List.mem_singleton.1 h2]; exact Or.inr trivial
      · simp only [Function.update_apply, hmn, if_false] at hm
        exact Or.inl hm)
    (Or.inl hs)
  exact h1.followedBy (pending_record h1.iso _)

theorem pending_reply {w : World} {c o : SockId} (h : Isolated w c o) (env : Platform)
    (s : SockId) (close : Bool) (code : Nat) (message : Option String)
    (hs : s ≠ c ∧ s ≠ o) : Pending w (socket_replyHTTP env w s close code message) c o := by
  cases close
  · rw [socket_replyHTTP_open]; exact pending_write h _ _ hs
  · rw [socket_replyHTTP_close]; exact pending_end h _ _ hs

theorem pending_twoWayPipe {w : World} {c o : SockId} (h : Isolated w c o) (a b : SockId)
    (ha : a ≠ c ∧ a ≠ o) (hb : b ≠ c ∧ b ≠ o) : Pending w (twoWayPipe w a b) c o := by
  unfold twoWayPipe
  have h1 := pending_pipe h a b hb
  have h2 := pending_pipe h1.iso b a ha
  have h3 := pending_on h2.iso a .close (.destroyOther b) trivial
  have h4 := pending_on h3.iso b .close (.destroyOther a) trivial
  exact ((h1.followedBy h2).followedBy h3).followedBy h4

theorem pending_runListener {w : World} {c o : SockId} (h : Isolated w c o) (env : Platform)
    (this : SockId) (ev : Event) (l : Listener)
    (hl : Harmless c o this (w.socks this).inSocket l) :
    Pending w (runListener env w this ev l) c o := by
  cases l with
  | tunnelConnected => exact pending_logger h _ _
  | tunnelClosed => exact pending_logger h _ _
  | tunnelError => cases ev <;> exact pending_logger h _ _
  | tunnelPipe =>
    simp only [runListener]
    obtain ⟨h1, h2, h3, h4⟩ := hl
    cases hi : (w.socks this).inSocket with
    | none => exact Pending.stay h
    | some i =>
      have hic : i ≠ c := fun e => h3 (by rw [hi, e])
      have hio : i ≠ o := fun e => h4 (by rw [hi, e])
      have h5 := pending_twoWayPipe h this i ⟨h1, h2⟩ ⟨hic, hio⟩
      exact h5.followedBy (pending_logger h5.iso _ _)
  | destroyOther other => exact pending_destroy h _
  | destroySelf self => exact pending_destroy h _
  | connClosed socket => exact pending_logger h _ _
  | connError socket => cases ev <;> exact pending_logger h _ _
  | replyEstablished socket head =>
    obtain ⟨h1, h2, h3, h4⟩ := hl
    have h5 := pending_reply h env socket false STATUS_CODE_200
      (some "Connection Established") ⟨h3, h4⟩
    cases head with
    | none => simpa only [runListener] using h5
    | some b =>
      simp only [runListener]
      exact h5.followedBy (pending_write h5.iso _ _ ⟨h1, h2⟩)

theorem pending_foldl (env : Platform) (this : SockId) (ev : Event) (c o : SockId)
    (ls : List Listener) (w : World) (h : Isolated w c o)
    (hl : ∀ l, l ∈ ls → Harmless c o this (w.socks this).inSocket l) :
    Pending w (ls.foldl (fun acc l => runListener env acc this ev l) w) c o := by
  induction ls generalizing w with
  | nil => exact Pending.stay h
  | cons l ls ih =>
    simp only [List.foldl_cons]
    have h1 := pending_runListener h env this ev l (hl l (List.mem_cons_self _ _))
    refine h1.followedBy (ih _ h1.iso ?_)
    intro l2 hl2
    rw [(grows_runListener env w this ev l).inSocket this]
    exact hl l2 (List.mem_cons_of_mem _ hl2)

theorem pending_emit {w : World} {c o : SockId} (h : Isolated w c o) (env : Platform)
    (s : SockId) (ev : Event) (hne : ¬ (s = o ∧ ev = .connect)) :
    Pending w (emit env w s ev) c o := by
  refine pending_foldl env s ev c o _ w h ?_
  intro l hl
  rcases h.lis s ev.name l hl with h1 | h1
  · exfalso
    apply hne
    refine ⟨h1.1, ?_⟩
    have := h1.2
    cases ev <;> simp [Event.name] at this ⊢
  · exact h1

theorem pending_deliver_aux (chunk : Bytes) (c o : SockId) (ds : List SockId) (w : World)
    (h : Isolated w c o) (hd : ∀ d, d ∈ ds → d ≠ c ∧ d ≠ o) :
    Pending w (ds.foldl (fun acc d => Socket_write acc d chunk) w) c o := by
  induction ds generalizing w with
  | nil => exact Pending.stay h
  | cons d ds ih =>
    simp only [List.foldl_cons]
    have h1 := pending_write h d chunk (hd d (List.mem_cons_self _ _))
    exact h1.followedBy (ih _ h1.iso (fun x hx => hd x (List.mem_cons_of_mem _ hx)))

theorem pending_deliver {w : World} {c o : SockId} (h : Isolated w c o) (s : SockId)
    (chunk : Bytes) : Pending w (deliver w s chunk) c o :=
  pending_deliver_aux chunk c o _ w h (fun d hd => h.pipes s d hd)

theorem pending_connect {w : World} {c o : SockId} (h : Isolated w c o) (s : SockId)
    (port : Option Nat) (host : String) : Pending w (Socket_connect w s port host) c o := by
  have h1 := pending_modify h s
    (fun k => { k with connectArgs := k.connectArgs ++ [(port, host)] }) rfl
    (fun d hd => Or.inl hd) (fun n l hl => Or.inl hl) (Or.inr rfl)
  have h2 := h1.followedBy (pending_record h1.iso (.connect s port host))
  unfold Socket_connect
  split
  · exact h2
  · exact h2.followedBy (pending_of_socks h2.iso rfl (le_refl _))

theorem pending_alloc {w : World} {c o : SockId} (h : Isolated w c o) (v : World)
    (hv : ∀ s, s ≠ w.nextSock → v.socks s = w.socks s)
    (hn : v.nextSock = w.nextSock + 1)
    (hp : (v.socks w.nextSock).pipes = [])
    (hl : ∀ n l, l ∈ (v.socks w.nextSock).listeners n →
      Harmless c o w.nextSock (v.socks w.nextSock).inSocket l) :
    Pending w v c o := by
  have hc : c ≠ w.nextSock := Nat.ne_of_lt h.clt
  have ho : o ≠ w.nextSock := Nat.ne_of_lt h.olt
  refine ⟨⟨?_, ?_, ?_, ?_⟩, by rw [hv c hc], by rw [hv o ho]⟩
  · rw [hn]; exact Nat.lt_succ_of_lt h.clt
  · rw [hn]; exact Nat.lt_succ_of_lt h.olt
  · intro s d hd
    by_cases hs : s = w.nextSock
    · subst hs; rw [hp] at hd; simp at hd
    · rw [hv s hs] at hd; exact h.pipes s d hd
  · intro s n l hm
    by_cases hs : s = w.nextSock
    · subst hs; exact Or.inr (hl n l hm)
    · rw [hv s hs] at hm ⊢; exact h.lis s n l hm

theorem accept_state (w : World) :
    (accept w).1.nextSock = w.nextSock + 1
      ∧ ((accept w).1.socks w.nextSock).pipes = []
      ∧ ((accept w).1.socks w.nextSock).listeners .connect = []
      ∧ ((accept w).1.socks w.nextSock).listeners .close = [.connClosed w.nextSock]
      ∧ ((accept w).1.socks w.nextSock).listeners .error = [.connError w.nextSock]
      ∧ ((accept w).1.socks w.nextSock).listeners .finish = []
      ∧ ∀ s, s ≠ w.nextSock → (accept w).1.socks s = w.socks s := by
  refine ⟨?_, ?_, ?_, ?_, ?_, ?_, ?_⟩
  all_goals try simp [accept, HTTPProxyServer.onConnection, Socket_on, logger, World.modify,
    World.record, Function.update_apply]
  intro s hs
  simp [hs]

theorem pending_accept {w : World} {c o : SockId} (h : Isolated w c o) :
    Pending w (accept w).1 c o := by
  obtain ⟨h1, h2, h3, h4, h5, h6, h7⟩ := accept_state w
  refine pending_alloc h _ h7 h1 h2 ?_
  intro n l hm
  cases n
  · rw [h3] at hm; simp at hm
  · rw [h4] at hm; rw [List.mem_singleton.1 hm]; trivial
  · rw [h5] at hm; rw [List.mem_singleton.1 hm]; trivial
  · rw [h6] at hm; simp at hm

theorem pending_onRequest {w : World} {c o : SockId} (h : Isolated w c o) (env : Platform)
    (method : String) (socket : SockId) (hs : socket ≠ c ∧ socket ≠ o) :
    Pending w (HTTPProxyServer.onRequest env w method socket) c o := by
  unfold HTTPProxyServer.onRequest
  have h1 := pending_logger h .warn
    ("Connection #" ++ toString w.connID ++ ", wrong request " ++ method)
  exact h1.followedBy (pending_reply h1.iso env socket true STATUS_CODE_405 none hs)

theorem pending_onConnect {w : World} {c o : SockId} (h : Isolated w c o) (env : Platform)
    (reqUrl : String) (socket : SockId) (head : Option Bytes)
    (hs : socket ≠ c ∧ socket ≠ o) :
    Pending w (HTTPProxyServer.onConnect env w reqUrl socket head) c o := by
  cases hp : env.parseURL ("whatwgsux://" ++ reqUrl) with
  | none =>
    simp only [HTTPProxyServer.onConnect, hp]
    have h1 := pending_logger h .warn
      ("Connection #" ++ showNum (w.socks socket).connID ++ ", invalid url " ++ reqUrl)
    exact h1.followedBy
      (pending_reply h1.iso env socket true STATUS_CODE_405 (some "Invalid URL") hs)
  | some url =>
    obtain ⟨h1, h2, _, h4, h5, h6, h7, h8, h9⟩ :=
      onConnect_ok_state env w reqUrl socket head url hp
    have hc : w.nextSock ≠ c := fun e => Nat.ne_of_lt h.clt e.symm
    have ho : w.nextSock ≠ o := fun e => Nat.ne_of_lt h.olt e.symm
    refine pending_alloc h _ h9 h1 h4 ?_
    intro n l hm
    rw [h2]
    cases n
    · rw [h5] at hm
      simp only [List.mem_cons, List.mem_singleton, List.not_mem_nil, or_false] at hm
      rcases hm with rfl | rfl | rfl
      · trivial
      · exact ⟨hc, ho, fun e => hs.1 (Option.some.inj e), fun e => hs.2 (Option.some.inj e)⟩
      · exact ⟨hc, ho, hs.1, hs.2⟩
    · rw [h6] at hm; rw [List.mem_singleton.1 hm]; trivial
    · rw [h7] at hm; rw [List.mem_singleton.1 hm]; trivial
    · rw [h8] at hm; simp at hm

theorem pending_step {w : World} {c o : SockId} (h : Isolated w c o) (env : Platform)
    (st : Step) (hc : Calm c o st) : Pending w (step env w st) c o := by
  unfold step
  split
  · exact Pending.stay h
  · cases st with
    | event s ev => exact pending_emit h env s ev hc
    | data s chunk => exact pending_deliver h s chunk
    | connection => exact pending_accept h
    | request method reqUrl socket head =>
      simp only [serverDispatch]
      split
      · exact pending_onConnect h env reqUrl socket head hc
      · exact pending_onRequest h env method socket hc

theorem pending_run (env : Platform) (c o : SockId) (steps : List Step) (w : World)
    (h : Isolated w c o) (hc : ∀ st, st ∈ steps → Calm c o st) :
    Pending w (run env w steps) c o := by
  induction steps generalizing w with
  | nil => exact Pending.stay h
  | cons st steps ih =>
    have h1 := pending_step h env st (hc st (List.mem_cons_self _ _))
    exact h1.followedBy (ih _ h1.iso (fun x hx => hc x (List.mem_cons_of_mem _ hx)))

/-- The CONNECT handler leaves a tunnel that is isolated, when the request
came in a world that did not refer to its two sockets. -/
theorem isolated_onConnect (env : Platform) (w : World) (reqUrl : String) (c : SockId)
    (head : Option Bytes) (url : URL)
    (hp : env.parseURL ("whatwgsux://" ++ reqUrl) = some url)
    (hu : Unreferenced w c w.nextSock) :
    Isolated (HTTPProxyServer.onConnect env w reqUrl c head) c w.nextSock := by
  obtain ⟨h1, h2, _, h4, h5, h6, h7, h8, h9⟩ := onConnect_ok_state env w reqUrl c head url hp
  refine ⟨?_, ?_, ?_, ?_⟩
  · rw [h1]; exact Nat.lt_succ_of_lt hu.clt
  · rw [h1]; exact Nat.lt_succ_self _
  · intro s d hd
    by_cases hs : s = w.nextSock
    · subst hs; rw [h4] at hd; simp at hd
    · rw [h9 s hs] at hd; exact hu.pipes s d hs hd
  · intro s n l hm
    by_cases hs : s = w.nextSock
    · subst hs
      cases n
      · exact Or.inl ⟨rfl, rfl⟩
      · rw [h6] at hm; rw [List.mem_singleton.1 hm]; exact Or.inr trivial
      · rw [h7] at hm; rw [List.mem_singleton.1 hm]; exact Or.inr trivial
      · rw [h8] at hm; simp at hm
    · rw [h9 s hs] at hm ⊢; exact Or.inr (hu.lis s n l hs hm)

/-! ## Lemmas: every world the server reaches is sound -/

theorem sound_of_socks {w w2 : World} (h : Sound w) (hs : w2.socks = w.socks)
    (hn : w2.nextSock = w.nextSock) : Sound w2 := by
  refine ⟨?_, ?_, ?_, ?_⟩
  · intro s hle; rw [hs]; rw [hn] at hle; exact h.fresh s hle
  · intro s d hd; rw [hs] at hd; rw [hn]; exact h.pipes s d hd
  · intro s i hi; rw [hs] at hi; rw [hn]; exact h.ins s i hi
  · intro s n k b hm; rw [hs] at hm; rw [hn]; exact h.reply s n k b hm

/-- A change of one socket that leaves its pipes, `inSocket` and callbacks. -/
theorem sound_frame {w : World} (h : Sound w) (s : SockId) (f : Socket → Socket)
    (hp : (f (w.socks s)).pipes = (w.socks s).pipes)
    (hi : (f (w.socks s)).inSocket = (w.socks s).inSocket)
    (hl : (f (w.socks s)).listeners = (w.socks s).listeners) : Sound (w.modify s f) := by
  refine ⟨?_, ?_, ?_, ?_⟩
  · intro t hle
    by_cases hts : t = s
    · subst hts
      simp only [World.modify, Function.update_same]
      rw [hp, hi, hl]; exact h.fresh _ hle
    · simp only [World.modify, Function.update_apply, hts, if_false]; exact h.fresh t hle
  · intro t d hd
    by_cases hts : t = s
    · subst hts
      simp only [World.modify, Function.update_same] at hd
      rw [hp] at hd; exact h.pipes _ d hd
    · simp only [World.modify, Function.update_apply, hts, if_false] at hd
      exact h.pipes t d hd
  · intro t i hin
    by_cases hts : t = s
    · subst hts
      simp only [World.modify, Function.update_same] at hin
      rw [hi] at hin; exact h.ins _ i hin
    · simp only [World.modify, Function.update_apply, hts, if_false] at hin
      exact h.ins t i hin
  · intro t n k b hm
    by_cases hts : t = s
    · subst hts
      simp only [World.modify, Function.update_same] at hm
      rw [hl] at hm; exact h.reply _ n k b hm
    · simp only [World.modify, Function.update_apply, hts, if_false] at hm
      exact h.reply t n k b hm

/-- A change of an existing socket that adds pipes to existing sockets and
callbacks whose captured client exists. -/
theorem sound_modify {w : World} (h : Sound w) (s : SockId) (hs : s < w.nextSock)
    (f : Socket → Socket)
    (hp : ∀ d, d ∈ (f (w.socks s)).pipes → d ∈ (w.socks s).pipes ∨ d < w.nextSock)
    (hi : (f (w.socks s)).inSocket = (w.socks s).inSocket)
    (hl : ∀ n k b, Listener.replyEstablished k b ∈ (f (w.socks s)).listeners n →
      Listener.replyEstablished k b ∈ (w.socks s).listeners n ∨ k < w.nextSock) :
    Sound (w.modify s f) := by
  refine ⟨?_, ?_, ?_, ?_⟩
  · intro t hle
    have hts : t ≠ s := fun e => by
      rw [e] at hle
      exact absurd hs (Nat.not_lt.2 hle)
    simp only [World.modify, Function.update_apply, hts, if_false]; exact h.fresh t hle
  · intro t d hd
    by_cases hts : t = s
    · subst hts
      simp only [World.modify, Function.update_same] at hd
      rcases hp d hd with h1 | h1
      · exact h.pipes _ d h1
      · exact h1
    · simp only [World.modify, Function.update_apply, hts, if_false] at hd
      exact h.pipes t d hd
  · intro t i hin
    by_cases hts : t = s
    · subst hts
      simp only [World.modify, Function.update_same] at hin
      rw [hi] at hin; exact h.ins _ i hin
    · simp only [World.modify, Function.update_apply, hts, if_false] at hin
      exact h.ins t i hin
  · intro t n k b hm
    by_cases hts : t = s
    · subst hts
      simp only [World.modify, Function.update_same] at hm
      rcases hl n k b hm with h1 | h1
      · exact h.reply _ n k b h1
      · exact h1
    · simp only [World.modify, Function.update_apply, hts, if_false] at hm
      exact h.reply t n k b hm

theorem sound_record {w : World} (h : Sound w) (e : Effect) : Sound (w.record e) :=
  sound_of_socks h rfl rfl

theorem sound_logger {w : World} (h : Sound w) (level : LogLevel) (msg : String) :
    Sound (logger w level msg) :=
  sound_record h _

theorem sound_destroy {w : World} (h : Sound w) (s : SockId) : Sound (Socket_destroy w s) := by
  unfold Socket_destroy
  exact sound_record (sound_frame h s _ rfl rfl rfl) _

theorem sound_write {w : World} (h : Sound w) (s : SockId) (d : Bytes) :
    Sound (Socket_write w s d) := by
  unfold Socket_write
  exact sound_record (sound_frame h s _ rfl rfl rfl) _

theorem sound_connect {w : World} (h : Sound w) (s : SockId) (port : Option Nat)
    (host : String) : Sound (Socket_connect w s port host) :=
  sound_of_socks (sound_frame h s (fun k => { k with connectArgs := k.connectArgs ++ [(port, host)] })
    rfl rfl rfl) (Socket_connect_socks w s port host) (Socket_connect_nextSock w s port host)

theorem sound_pipe {w : World} (h : Sound w) (a b : SockId) (ha : a < w.nextSock)
    (hb : b < w.nextSock) : Sound (Socket_pipe w a b) := by
  unfold Socket_pipe
  refine sound_record (sound_modify h a ha _ ?_ rfl ?_) _
  · intro d hd
    rcases List.mem_append.1 hd with h1 | h1
    · exact Or.inl h1
    · rw [List.mem_singleton.1 h1]; exact Or.inr hb
  · intro n k b hm; exact Or.inl hm

theorem sound_on {w : World} (h : Sound w) (s : SockId) (n : EventName) (l : Listener)
    (hs : s < w.nextSock) (hl : ∀ k b, l = .replyEstablished k b → k < w.nextSock) :
    Sound (Socket_on w s n l) := by
  unfold Socket_on
  refine sound_record (sound_modify h s hs _ ?_ rfl ?_) _
  · intro d hd; exact Or.inl hd
  · intro m k b hm
    by_cases hmn : m = n
    · subst hmn
      simp only [Function.update_same] at hm
      rcases List.mem_append.1 hm with h1 | h1
      · exact Or.inl h1
      · exact Or.inr (hl k b (List.mem_singleton.1 h1).symm)
    · simp only [Function.update_apply, hmn, if_false] at hm
      exact Or.inl hm

theorem sound_end {w : World} (h : Sound w) (s : SockId) (d : Bytes) (hs : s < w.nextSock) :
    Sound (Socket_end w s d (.destroySelf s)) := by
  unfold Socket_end
  refine sound_record (sound_modify h s hs _ ?_ rfl ?_) _
  · intro d hd; exact Or.inl hd
  · intro m k b hm
    by_cases hmn : m = .finish
    · subst hmn
      simp only [Function.update_same] at hm
      rcases List.mem_append.1 hm with h1 | h1
      · exact Or.inl h1
      · simp at h1
    · simp only [Function.update_apply, hmn, if_false] at hm
      exact Or.inl hm

theorem sound_twoWayPipe {w : World} (h : Sound w) (a b : SockId) (ha : a < w.nextSock)
    (hb : b < w.nextSock) : Sound (twoWayPipe w a b) := by
  unfold twoWayPipe
  have h1 := sound_pipe h a b ha hb
  have h2 := sound_pipe h1 b a hb ha
  have h3 := sound_on h2 a .close (.destroyOther b) ha (fun k c e => by cases e)
  exact sound_on h3 b .close (.destroyOther a) hb (fun k c e => by cases e)

theorem sound_exists {w : World} (h : Sound w) (s : SockId) (n : EventName) (l : Listener)
    (hl : l ∈ (w.socks s).listeners n) : s < w.nextSock := by
  by_contra hc
  have := (h.fresh s (Nat.not_lt.1 hc)).2.2 n
  rw [this] at hl
  simp at hl

theorem sound_runListener {w : World} (h : Sound w) (env : Platform) (this : SockId)
    (ev : Event) (l : Listener) (hthis : this < w.nextSock) :
    Sound (runListener env w this ev l) := by
  cases l with
  | tunnelConnected => exact sound_logger h _ _
  | tunnelClosed => exact sound_logger h _ _
  | tunnelError => cases ev <;> exact sound_logger h _ _
  | tunnelPipe =>
    simp only [runListener]
    cases hi : (w.socks this).inSocket with
    | none => exact h
    | some i => exact sound_logger (sound_twoWayPipe h this i hthis (h.ins this i hi)) _ _
  | destroyOther other => exact sound_destroy h _
  | destroySelf self => exact sound_destroy h _
  | connClosed socket => exact sound_logger h _ _
  | connError socket => cases ev <;> exact sound_logger h _ _
  | replyEstablished socket head =>
    have h5 : Sound (socket_replyHTTP env w socket false STATUS_CODE_200
        (some "Connection Established")) := by
      rw [socket_replyHTTP_open]; exact sound_write h _ _
    cases head with
    | none => simpa only [runListener] using h5
    | some b => simp only [runListener]; exact sound_write h5 _ _

theorem sound_foldl (env : Platform) (this : SockId) (ev : Event) (ls : List Listener)
    (w : World) (h : Sound w) (hthis : this < w.nextSock) :
    Sound (ls.foldl (fun acc l => runListener env acc this ev l) w) := by
  induction ls generalizing w with
  | nil => exact h
  | cons l ls ih =>
    simp only [List.foldl_cons]
    refine ih _ (sound_runListener h env this ev l hthis) ?_
    rw [(grows_runListener env w this ev l).next]; exact hthis

theorem sound_emit {w : World} (h : Sound w) (env : Platform) (s : SockId) (ev : Event) :
    Sound (emit env w s ev) := by
  by_cases hs : s < w.nextSock
  · exact sound_foldl env s ev _ w h hs
  · have := (h.fresh s (Nat.not_lt.1 hs)).2.2 ev.name
    simp only [emit, this, List.foldl_nil]
    exact h

theorem sound_deliver_aux (chunk : Bytes) (ds : List SockId) (w : World) (h : Sound w) :
    Sound (ds.foldl (fun acc d => Socket_write acc d chunk) w) := by
  induction ds generalizing w with
  | nil => exact h
  | cons d ds ih => exact ih _ (sound_write h d chunk)

theorem sound_deliver {w : World} (h : Sound w) (s : SockId) (chunk : Bytes) :
    Sound (deliver w s chunk) :=
  sound_deliver_aux chunk _ w h

/-- A new socket object at the next free index, with no pipes, whose
`inSocket` and captured clients exist. -/
theorem sound_alloc {w : World} (h : Sound w) (v : World)
    (hv : ∀ s, s ≠ w.nextSock → v.socks s = w.socks s)
    (hn : v.nextSock = w.nextSock + 1)
    (hp : (v.socks w.nextSock).pipes = [])
    (hi : ∀ i, (v.socks w.nextSock).inSocket = some i → i < w.nextSock)
    (hl : ∀ n k b, Listener.replyEstablished k b ∈ (v.socks w.nextSock).listeners n →
      k < w.nextSock) : Sound v := by
  refine ⟨?_, ?_, ?_, ?_⟩
  · intro s hle
    rw [hn] at hle
    have hs : s ≠ w.nextSock := Nat.ne_of_gt (Nat.lt_of_succ_le hle)
    rw [hv s hs]
    exact h.fresh s (Nat.le_of_succ_le hle)
  · intro s d hd
    rw [hn]
    by_cases hs : s = w.nextSock
    · subst hs; rw [hp] at hd; simp at hd
    · rw [hv s hs] at hd; exact Nat.lt_succ_of_lt (h.pipes s d hd)
  · intro s i hin
    rw [hn]
    by_cases hs : s = w.nextSock
    · subst hs; exact Nat.lt_succ_of_lt (hi i hin)
    · rw [hv s hs] at hin; exact Nat.lt_succ_of_lt (h.ins s i hin)
  · intro s n k b hm
    rw [hn]
    by_cases hs : s = w.nextSock
    · subst hs; exact Nat.lt_succ_of_lt (hl n k b hm)
    · rw [hv s hs] at hm; exact Nat.lt_succ_of_lt (h.reply s n k b hm)

theorem accept_inSocket (w : World) : ((accept w).1.socks w.nextSock).inSocket = none := by
  simp [accept, HTTPProxyServer.onConnection, Socket_on, logger, World.modify, World.record]

theorem sound_accept {w : World} (h : Sound w) : Sound (accept w).1 := by
  obtain ⟨h1, h2, h3, h4, h5, h6, h7⟩ := accept_state w
  refine sound_alloc h _ h7 h1 h2 ?_ ?_
  · intro i hi; rw [accept_inSocket] at hi; cases hi
  · intro n k b hm
    cases n
    · rw [h3] at hm; simp at hm
    · rw [h4] at hm; simp at hm
    · rw [h5] at hm; simp at hm
    · rw [h6] at hm; simp at hm

theorem sound_onRequest {w : World} (h : Sound w) (env : Platform) (method : String)
    (socket : SockId) (hs : socket < w.nextSock) :
    Sound (HTTPProxyServer.onRequest env w method socket) := by
  unfold HTTPProxyServer.onRequest
  rw [socket_replyHTTP_close]
  exact sound_end (sound_logger h _ _) _ _ hs

theorem sound_onConnect {w : World} (h : Sound w) (env : Platform) (reqUrl : String)
    (socket : SockId) (head : Option Bytes) (hs : socket < w.nextSock) :
    Sound (HTTPProxyServer.onConnect env w reqUrl socket head) := by
  cases hp : env.parseURL ("whatwgsux://" ++ reqUrl) with
  | none =>
    simp only [HTTPProxyServer.onConnect, hp]
    rw [socket_replyHTTP_close]
    exact sound_end (sound_logger h _ _) _ _ hs
  | some url =>
    obtain ⟨h1, h2, _, h4, h5, h6, h7, h8, h9⟩ :=
      onConnect_ok_state env w reqUrl socket head url hp
    refine sound_alloc h _ h9 h1 h4 ?_ ?_
    · intro i hi
      rw [h2] at hi
      cases hi
      exact hs
    · intro n k b hm
      cases n
      · rw [h5] at hm
        simp only [List.mem_cons, List.mem_singleton, List.not_mem_nil, or_false] at hm
        rcases hm with hm | hm | hm
        · cases hm
        · cases hm
        · cases hm; exact hs
      · rw [h6] at hm; simp at hm
      · rw [h7] at hm; simp at hm
      · rw [h8] at hm; simp at hm

theorem sound_step {w : World} (h : Sound w) (env : Platform) (st : Step)
    (hd : st.deliverable w) : Sound (step env w st) := by
  unfold step
  split
  · exact h
  · cases st with
    | event s ev => exact sound_emit h env s ev
    | data s chunk => exact sound_deliver h s chunk
    | connection => exact sound_accept h
    | request method reqUrl socket head =>
      simp only [serverDispatch]
      split
      · exact sound_onConnect h env reqUrl socket head hd
      · exact sound_onRequest h env method socket hd

theorem sound_run (env : Platform) (steps : List Step) (w : World) (h : Sound w)
    (hd : Deliverable env w steps) : Sound (run env w steps) := by
  induction steps generalizing w with
  | nil => exact h
  | cons st steps ih => exact ih _ (sound_step h env st hd.1) hd.2

theorem sound_start : Sound HTTPProxyServer :=
  ⟨fun _ _ => ⟨rfl, rfl, fun _ => rfl⟩, fun _ _ hd => by simp [HTTPProxyServer] at hd,
    fun _ _ hi => by simp [HTTPProxyServer] at hi,
    fun _ _ _ _ hm => by simp [HTTPProxyServer] at hm⟩

/-- In a sound world, a connection that has just been accepted and the socket
object that will be created next are referred to by nothing. -/
theorem unreferenced_accept {w : World} (h : Sound w) :
    Unreferenced (accept w).1 w.nextSock (accept w).1.nextSock := by
  obtain ⟨h1, h2, h3, h4, h5, h6, h7⟩ := accept_state w
  rw [h1]
  refine ⟨Nat.lt_succ_self _, ?_, ?_⟩
  · intro s d _ hd
    by_cases hs : s = w.nextSock
    · subst hs; rw [h2] at hd; simp at hd
    · rw [h7 s hs] at hd
      have := h.pipes s d hd
      exact ⟨Nat.ne_of_lt this, Nat.ne_of_lt (Nat.lt_succ_of_lt this)⟩
  · intro s n l hso hm
    by_cases hs : s = w.nextSock
    · subst hs
      cases n
      · rw [h3] at hm; simp at hm
      · rw [h4] at hm; rw [List.mem_singleton.1 hm]; trivial
      · rw [h5] at hm; rw [List.mem_singleton.1 hm]; trivial
      · rw [h6] at hm; simp at hm
    · rw [h7 s hs] at hm ⊢
      cases l with
      | tunnelPipe =>
        refine ⟨hs, hso, ?_, ?_⟩
        · intro e; exact absurd (h.ins s _ e) (Nat.lt_irrefl _)
        · intro e; exact absurd (h.ins s _ e) (Nat.not_lt.2 (Nat.le_succ _))
      | replyEstablished k b =>
        have := h.reply s n k b hm
        exact ⟨hs, hso, Nat.ne_of_lt this, Nat.ne_of_lt (Nat.lt_succ_of_lt this)⟩
      | _ => trivial

/-- After every sequence of inputs the runtime can deliver to the server, a
connection accepted then and the socket object created next are referred to
by nothing. -/
theorem unreferenced_reachable (env : Platform) (pre : List Step)
    (hd : Deliverable env HTTPProxyServer pre) :
    Unreferenced (accept (run env HTTPProxyServer pre)).1
      (run env HTTPProxyServer pre).nextSock
      (accept (run env HTTPProxyServer pre)).1.nextSock :=
  unreferenced_accept (sound_run env pre HTTPProxyServer sound_start hd)

/-! ## The port of the outbound connection -/

/-- C1, evaluated on the code: for the request target `example.test:8080`,
whose URL has the explicit port 8080, the port resolution `url.port |
DEFAULT_PORT` is a bitwise or and gives 8123, and the CONNECT handler calls
`connect` on the outbound socket with port 8123 and host `example.test`, not
with port 8080. -/
theorem onConnect_explicit_port_8080 :
    node.parseURL ("whatwgsux://" ++ "example.test:8080")
        = some { hostname := "example.test", port := some 8080 }
      ∧ jsBitOr 8080 DEFAULT_PORT = 8123
      ∧ ((HTTPProxyServer.onConnect node accepted "example.test:8080" 0 none).socks
          1).connectArgs = [(some 8123, "example.test")]
      ∧ (actions ((HTTPProxyServer.onConnect node accepted "example.test:8080" 0 none).since
          accepted)).getLast? = some (.connect 1 (some 8123) "example.test") := by
  decide

/-- C4: for every CONNECT request whose target authority parses successfully
and contains no port, the CONNECT handler calls `connect` on the outbound
socket exactly once, as its last action, with port 443 and the host of the
URL, and the call does not throw.  A target authority that parses as
`host[:port]` has a host: the hostname of its URL is not empty. -/
theorem onConnect_default_port (env : Platform) (w : World) (reqUrl : String)
    (socket : SockId) (head : Option Bytes) (url : URL)
    (hp : env.parseURL ("whatwgsux://" ++ reqUrl) = some url)
    (hport : url.port = none) (hhost : url.hostname ≠ "") :
    ((HTTPProxyServer.onConnect env w reqUrl socket head).socks w.nextSock).connectArgs
        = [(some 443, url.hostname)]
      ∧ (actions ((HTTPProxyServer.onConnect env w reqUrl socket head).since w)).getLast?
        = some (.connect w.nextSock (some 443) url.hostname)
      ∧ (HTTPProxyServer.onConnect env w reqUrl socket head).crashed = w.crashed := by
  have hu : url.setPort (jsBitOr url.portNumber DEFAULT_PORT)
      = { hostname := url.hostname, port := some 443 } := by
    have h0 : jsBitOr 0 DEFAULT_PORT = 443 := by decide
    simp [URL.setPort, hhost, URL.portNumber, hport, h0]
  have hv : validatePort (some 443) = true := by decide
  simp [HTTPProxyServer.onConnect, hp, hu, createOutTLSSock, newTLSSocket, Socket_on,
    Socket_connect_socks, Socket_connect_trace, Socket_connect_crashed, hv, logger,
    World.modify, World.record, World.since, actions, Effect.isLog]

/-- C4 at the request target `example.test` of the specification. -/
theorem onConnect_default_port_witness :
    node.parseURL ("whatwgsux://" ++ "example.test")
        = some { hostname := "example.test", port := none }
      ∧ ((HTTPProxyServer.onConnect node accepted "example.test" 0 (some [])).socks
          accepted.nextSock).connectArgs = [(some 443, "example.test")]
      ∧ (actions ((HTTPProxyServer.onConnect node accepted "example.test" 0 (some [])).since
          accepted)).getLast? = some (.connect accepted.nextSock (some 443) "example.test")
      ∧ (HTTPProxyServer.onConnect node accepted "example.test" 0 (some [])).crashed
        = accepted.crashed :=
  ⟨by decide,
    onConnect_default_port node accepted "example.test" 0 (some [])
      { hostname := "example.test", port := none } (by decide) rfl (by decide)⟩

/-! ## Rejected requests -/

/-- C5, evaluated on the code: the request target `/x` is no `host[:port]`
pair, yet `new URL` does not throw on it (the URL has an empty host and no
port), so the CONNECT handler sends no 405 response: it hands no data to any
socket, creates the outbound socket, registers its callbacks and calls
`connect` with the empty port string and the empty host, which throws
`ERR_SOCKET_BAD_PORT`; nothing catches it and the process exits. -/
theorem onConnect_target_without_host :
    node.parseURL ("whatwgsux://" ++ "/x") = some { hostname := "", port := none }
      ∧ writes ((HTTPProxyServer.onConnect node accepted "/x" 0 (some [])).since accepted) = []
      ∧ actions ((HTTPProxyServer.onConnect node accepted "/x" 0 (some [])).since accepted)
        = [ .newTLSSocket 1,
            .on 1 .connect .tunnelConnected,
            .on 1 .close .tunnelClosed,
            .on 1 .error .tunnelError,
            .on 1 .connect .tunnelPipe,
            .on 1 .connect (.replyEstablished 0 (some [])),
            .connect 1 none "",
            .uncaught "ERR_SOCKET_BAD_PORT" ]
      ∧ ((HTTPProxyServer.onConnect node accepted "/x" 0 (some [])).socks 0).ended = false
      ∧ (HTTPProxyServer.onConnect node accepted "/x" 0 (some [])).crashed = true := by
  decide

/-- Where `new URL` throws on the target of a CONNECT request, the only action
of the CONNECT handler is to end the client socket with the bytes of
`HTTP/1.1 405 Invalid URL`, a `Connection: close` line and the empty line; the
callback given to `end`, run when the stream has finished, destroys that
socket; no socket object is created and no `connect` is called. -/
theorem onConnect_invalid_url (env : Platform) (w : World) (reqUrl : String)
    (socket : SockId) (head : Option Bytes)
    (hp : env.parseURL ("whatwgsux://" ++ reqUrl) = none) :
    actions ((HTTPProxyServer.onConnect env w reqUrl socket head).since w)
        = [.endWith socket
            (Buffer_from_ascii "HTTP/1.1 405 Invalid URL\r\nConnection: close\r\n\r\n")]
      ∧ ((HTTPProxyServer.onConnect env w reqUrl socket head).socks socket).ended = true
      ∧ ((HTTPProxyServer.onConnect env w reqUrl socket head).socks socket).listeners .finish
          = (w.socks socket).listeners .finish ++ [.destroySelf socket]
      ∧ ((emit env (HTTPProxyServer.onConnect env w reqUrl socket head) socket .finish).socks
          socket).destroyed = true
      ∧ (HTTPProxyServer.onConnect env w reqUrl socket head).nextSock = w.nextSock
      ∧ ∀ s, ((HTTPProxyServer.onConnect env w reqUrl socket head).socks s).connectArgs
          = (w.socks s).connectArgs := by
  simp [HTTPProxyServer.onConnect, hp, socket_replyHTTP_close, invalid_url_bytes, Socket_end,
    logger, World.since, World.modify, World.record, actions, Effect.isLog, emit, Event.name,
    List.foldl_append, runListener, Socket_destroy, Function.update_apply]
  intro s
  split_ifs with h
  · subst h; rfl
  · rfl

/-- The malformed target `:::::bad` of the specification, on which `new URL`
throws, is answered 405. -/
theorem onConnect_invalid_url_bad_target :
    node.parseURL ("whatwgsux://" ++ ":::::bad") = none
      ∧ actions ((HTTPProxyServer.onConnect node accepted ":::::bad" 0 (some [])).since accepted)
        = [.endWith 0
            (Buffer_from_ascii "HTTP/1.1 405 Invalid URL\r\nConnection: close\r\n\r\n")]
      ∧ ((emit node (HTTPProxyServer.onConnect node accepted ":::::bad" 0 (some [])) 0
          .finish).socks 0).destroyed = true
      ∧ (HTTPProxyServer.onConnect node accepted ":::::bad" 0 (some [])).nextSock
        = accepted.nextSock
      ∧ Buffer_from_ascii "HTTP/1.1 405 Invalid URL\r\nConnection: close\r\n\r\n"
          = [72, 84, 84, 80, 47, 49, 46, 49, 32, 52, 48, 53, 32, 73, 110, 118, 97, 108, 105,
              100, 32, 85, 82, 76, 13, 10, 67, 111, 110, 110, 101, 99, 116, 105, 111, 110, 58,
              32, 99, 108, 111, 115, 101, 13, 10, 13, 10] :=
  ⟨by decide,
    (onConnect_invalid_url node accepted ":::::bad" 0 (some []) (by decide)).1,
    (onConnect_invalid_url node accepted ":::::bad" 0 (some []) (by decide)).2.2.2.1,
    (onConnect_invalid_url node accepted ":::::bad" 0 (some []) (by decide)).2.2.2.2.1,
    by decide⟩

/-- C6: for every request with a method other than CONNECT, on a platform
whose reason phrase for 405 is `Method Not Allowed`, the only action of the
server is to end the socket of the request with the bytes of
`HTTP/1.1 405 Method Not Allowed`, a `Connection: close` line and the empty
line; the callback given to `end`, run when the stream has finished, destroys
that socket; no socket object is created and no `connect` is called. -/
theorem request_not_connect_405 (env : Platform) (w : World) (method reqUrl : String)
    (socket : SockId) (head : Option Bytes)
    (hm : method ≠ "CONNECT")
    (hc : env.STATUS_CODES 405 = some "Method Not Allowed") :
    actions ((serverDispatch env w method reqUrl socket head).since w)
        = [.endWith socket
            (Buffer_from_ascii "HTTP/1.1 405 Method Not Allowed\r\nConnection: close\r\n\r\n")]
      ∧ ((serverDispatch env w method reqUrl socket head).socks socket).ended = true
      ∧ ((serverDispatch env w method reqUrl socket head).socks socket).listeners .finish
          = (w.socks socket).listeners .finish ++ [.destroySelf socket]
      ∧ ((emit env (serverDispatch env w method reqUrl socket head) socket .finish).socks
          socket).destroyed = true
      ∧ (serverDispatch env w method reqUrl socket head).nextSock = w.nextSock
      ∧ ∀ s, ((serverDispatch env w method reqUrl socket head).socks s).connectArgs
          = (w.socks s).connectArgs := by
  have hb : replyBytes env STATUS_CODE_405 none true
      = Buffer_from_ascii "HTTP/1.1 405 Method Not Allowed\r\nConnection: close\r\n\r\n" := by
    have hc2 : env.STATUS_CODES STATUS_CODE_405 = some "Method Not Allowed" := hc
    simp [replyBytes, jsOr, showStr, hc2, method_not_allowed_text]
  simp [serverDispatch, hm, HTTPProxyServer.onRequest, socket_replyHTTP_close, hb, Socket_end,
    logger, World.since, World.modify, World.record, actions, Effect.isLog, emit, Event.name,
    List.foldl_append, runListener, Socket_destroy, Function.update_apply]
  intro s
  split_ifs with h
  · subst h; rfl
  · rfl

/-- C6 at the request `GET /` of the specification. -/
theorem request_not_connect_405_witness :
    "GET" ≠ "CONNECT"
      ∧ node.STATUS_CODES 405 = some "Method Not Allowed"
      ∧ actions ((serverDispatch node accepted "GET" "/" 0 none).since accepted)
        = [.endWith 0
            (Buffer_from_ascii "HTTP/1.1 405 Method Not Allowed\r\nConnection: close\r\n\r\n")]
      ∧ ((emit node (serverDispatch node accepted "GET" "/" 0 none) 0 .finish).socks
          0).destroyed = true
      ∧ (serverDispatch node accepted "GET" "/" 0 none).nextSock = accepted.nextSock
      ∧ Buffer_from_ascii "HTTP/1.1 405 Method Not Allowed\r\nConnection: close\r\n\r\n"
          = [72, 84, 84, 80, 47, 49, 46, 49, 32, 52, 48, 53, 32, 77, 101, 116, 104, 111, 100,
              32, 78, 111, 116, 32, 65, 108, 108, 111, 119, 101, 100, 13, 10, 67, 111, 110,
              110, 101, 99, 116, 105, 111, 110, 58, 32, 99, 108, 111, 115, 101, 13, 10, 13,
              10] :=
  ⟨by decide, by decide,
    (request_not_connect_405 node accepted "GET" "/" 0 none (by decide) (by decide)).1,
    (request_not_connect_405 node accepted "GET" "/" 0 none (by decide) (by decide)).2.2.2.1,
    (request_not_connect_405 node accepted "GET" "/" 0 none (by decide) (by decide)).2.2.2.2.1,
    by decide⟩

/-! ## The response writer -/

/-- C7, evaluated on the code: called with the code 405 and the message given
as the empty string, `socket_replyHTTP` sends the standard reason phrase
`Method Not Allowed` of the code, not the status line with the given
message. -/
theorem socket_replyHTTP_empty_message :
    (socket_replyHTTP node accepted 0 true 405 (some "")).since accepted
        = [.endWith 0
            (Buffer_from_ascii "HTTP/1.1 405 Method Not Allowed\r\nConnection: close\r\n\r\n")]
      ∧ (socket_replyHTTP node accepted 0 true 405 (some "")).since accepted
        ≠ [.endWith 0 (Buffer_from_ascii (responseText 405 "" true))] := by
  decide

/-- What `socket_replyHTTP` does for every code, message and flag `close`: it
hands the socket, in one call, the bytes of the status line, the line
`Connection: close` if and only if `close` is set, and the empty line, where
the text of the status line is the message when it is a string that is not
empty, and else the entry of `http.STATUS_CODES` for the code.  With `close`
set the call is `end`, the socket is marked ended and the callback run when
the stream has finished destroys it, as the last effect; without `close` the
call is `write` and the `ended` flag, the `destroyed` flag and the callbacks
of the socket stay as they were. -/
theorem socket_replyHTTP_response (env : Platform) (w : World) (this : SockId)
    (close : Bool) (code : Nat) (message : Option String) :
    match close with
    | true =>
      (socket_replyHTTP env w this true code message).since w
          = [.endWith this (Buffer_from_ascii (responseText code
              (match message with
                | some m => if m = "" then showStr (env.STATUS_CODES code) else m
                | none => showStr (env.STATUS_CODES code)) true))]
        ∧ ((socket_replyHTTP env w this true code message).socks this).ended = true
        ∧ ((socket_replyHTTP env w this true code message).socks this).listeners .finish
            = (w.socks this).listeners .finish ++ [.destroySelf this]
        ∧ ((emit env (socket_replyHTTP env w this true code message) this .finish).socks
            this).destroyed = true
        ∧ (emit env (socket_replyHTTP env w this true code message) this .finish).trace.getLast?
            = some (.destroy this)
    | false =>
      (socket_replyHTTP env w this false code message).since w
          = [.write this (Buffer_from_ascii (responseText code
              (match message with
                | some m => if m = "" then showStr (env.STATUS_CODES code) else m
                | none => showStr (env.STATUS_CODES code)) false))]
        ∧ ((socket_replyHTTP env w this false code message).socks this).ended
            = (w.socks this).ended
        ∧ ((socket_replyHTTP env w this false code message).socks this).destroyed
            = (w.socks this).destroyed
        ∧ ((socket_replyHTTP env w this false code message).socks this).listeners
            = (w.socks this).listeners := by
  have hm : (match message with
        | some m => if m = "" then showStr (env.STATUS_CODES code) else m
        | none => showStr (env.STATUS_CODES code))
      = showStr (jsOr message (env.STATUS_CODES code)) := by
    cases message with
    | none => rfl
    | some m => by_cases h : m = "" <;> simp [jsOr, h, showStr]
  rw [hm]
  cases close
  · simp [socket_replyHTTP_open, replyBytes, Socket_write, World.since, World.modify,
      World.record]
  · simp [socket_replyHTTP_close, replyBytes, Socket_end, World.since, World.modify,
      World.record, emit, Event.name, List.foldl_append, runListener, Socket_destroy]


/-! ## The `connect` event of the outbound socket -/

theorem writes_actions (t : List Effect) : writes (actions t) = writes t := by
  induction t with
  | nil => rfl
  | cons e t ih =>
    cases e <;> simp_all [writes, actions, Effect.isLog]

theorem step_alive (env : Platform) (v : World) (s : SockId) (ev : Event)
    (hc : ¬ v.crashed = true) : step env v (.event s ev) = emit env v s ev := by
  simp [step, hc]

theorem since_self (v : World) : v.since v = [] := by
  simp [World.since]

/-- Whatever inputs come in after the CONNECT handler, the outbound socket
keeps its three callbacks for `connect` and its client. -/
theorem tunnel_after_steps (env : Platform) (w : World) (reqUrl : String)
    (socket : SockId) (head : Option Bytes) (url : URL) (steps : List Step)
    (hp : env.parseURL ("whatwgsux://" ++ reqUrl) = some url) :
    ((run env (HTTPProxyServer.onConnect env w reqUrl socket head) steps).socks
        w.nextSock).listeners .connect
        = [.tunnelConnected, .tunnelPipe, .replyEstablished socket head]
      ∧ ((run env (HTTPProxyServer.onConnect env w reqUrl socket head) steps).socks
        w.nextSock).inSocket = some socket
      ∧ w.nextSock < (run env (HTTPProxyServer.onConnect env w reqUrl socket head)
        steps).nextSock := by
  obtain ⟨h1, h2, _, _, h5, _⟩ := onConnect_ok_state env w reqUrl socket head url hp
  have hext := extends_run env steps (HTTPProxyServer.onConnect env w reqUrl socket head)
  have hlt : w.nextSock < (HTTPProxyServer.onConnect env w reqUrl socket head).nextSock := by
    rw [h1]; exact Nat.lt_succ_self _
  exact ⟨(hext.connects _ hlt).trans h5, (hext.inSocket _ hlt).trans h2,
    lt_of_lt_of_le hlt hext.next⟩

/-- C10 as stated fails: for the request target `example.test:443` with the
pre-read bytes 22, 3, 1, the `connect` event first runs `twoWayPipe` (the two
`pipe` calls and the two `close` listeners) and only then writes the 200
response to the client and the pre-read bytes to the outbound socket. -/
theorem connect_event_relay_first :
    actions ((emit node
        (HTTPProxyServer.onConnect node accepted "example.test:443" 0 (some [22, 3, 1])) 1
        .connect).since
        (HTTPProxyServer.onConnect node accepted "example.test:443" 0 (some [22, 3, 1])))
      = [ .pipe 1 0,
          .pipe 0 1,
          .on 1 .close (.destroyOther 0),
          .on 0 .close (.destroyOther 1),
          .write 0 (Buffer_from_ascii "HTTP/1.1 200 Connection Established\r\n\r\n"),
          .write 1 [22, 3, 1] ] := by
  decide

/-- C10 as amended: on the `connect` event of the outbound socket, after
whatever inputs came in since the CONNECT request, the tunnel performs its
actions in this order: first `twoWayPipe` between the outbound and the client
socket of the request (the two `pipe` calls, then the two `close` listeners),
then the write of the 200 `Connection Established` response to the client,
then the write of the pre-read bytes, if any, to the outbound socket.  (A
process that has exited on an uncaught exception performs nothing.) -/
theorem connect_event_order (env : Platform) (w : World) (reqUrl : String)
    (socket : SockId) (head : Option Bytes) (url : URL) (steps : List Step) (v : World)
    (hp : env.parseURL ("whatwgsux://" ++ reqUrl) = some url) (hs : socket ≠ w.nextSock)
    (hv : v = run env (HTTPProxyServer.onConnect env w reqUrl socket head) steps) :
    actions ((step env v (.event w.nextSock .connect)).since v)
      = if v.crashed = true then []
        else
          [ .pipe w.nextSock socket,
            .pipe socket w.nextSock,
            .on w.nextSock .close (.destroyOther socket),
            .on socket .close (.destroyOther w.nextSock),
            .write socket (Buffer_from_ascii "HTTP/1.1 200 Connection Established\r\n\r\n") ]
          ++ head.toList.map (Effect.write w.nextSock) := by
  obtain ⟨hl, hin, _⟩ := tunnel_after_steps env w reqUrl socket head url steps hp
  rw [← hv] at hl hin
  by_cases hc : v.crashed = true
  · simp [step, hc, since_self, actions]
  · rw [step_alive env v _ _ hc, if_neg hc]
    exact (emit_connect_tunnel env v socket w.nextSock head hs hl hin).1

/-- The amended C10 at the request target `example.test:443` with the pre-read
bytes 22, 3, 1, where a second connection is accepted and asks for a tunnel of
its own before the outbound socket of the first connects. -/
theorem connect_event_order_witness :
    node.parseURL ("whatwgsux://" ++ "example.test:443")
        = some { hostname := "example.test", port := some 443 }
      ∧ (0 : SockId) ≠ accepted.nextSock
      ∧ actions ((step node
            (run node
              (HTTPProxyServer.onConnect node accepted "example.test:443" 0 (some [22, 3, 1]))
              [.connection, .request "CONNECT" "example.test:8080" 2 (some [])])
            (.event accepted.nextSock .connect)).since
            (run node
              (HTTPProxyServer.onConnect node accepted "example.test:443" 0 (some [22, 3, 1]))
              [.connection, .request "CONNECT" "example.test:8080" 2 (some [])]))
        = [ .pipe accepted.nextSock 0,
            .pipe 0 accepted.nextSock,
            .on accepted.nextSock .close (.destroyOther 0),
            .on 0 .close (.destroyOther accepted.nextSock),
            .write 0 (Buffer_from_ascii "HTTP/1.1 200 Connection Established\r\n\r\n"),
            .write accepted.nextSock [22, 3, 1] ]
      ∧ ((step node
            (run node
              (HTTPProxyServer.onConnect node accepted "example.test:443" 0 (some [22, 3, 1]))
              [.connection, .request "CONNECT" "example.test:8080" 2 (some [])])
            (.event accepted.nextSock .connect)).socks 2).written = [] :=
  ⟨by decide, by decide,
    (connect_event_order node accepted "example.test:443" 0 (some [22, 3, 1])
      { hostname := "example.test", port := some 443 }
      [.connection, .request "CONNECT" "example.test:8080" 2 (some [])] _
      (by decide) (by decide) rfl).trans (by decide),
    by decide⟩

theorem unreferenced_busy : Unreferenced busy 2 busy.nextSock :=
  unreferenced_reachable node
    [.connection, .request "CONNECT" "example.test:8080" 0 (some []), .event 1 .connect]
    ⟨trivial,
      (by decide : (0 : SockId) < (step node HTTPProxyServer Step.connection).nextSock),
      trivial, trivial⟩

theorem calm_example :
    ∀ st, st ∈ [Step.data 0 [104, 105], .connection,
        .request "CONNECT" "example.test" 4 (some [])] → Calm 2 busy.nextSock st := by
  intro st hst
  simp only [List.mem_cons, List.mem_singleton, List.not_mem_nil, or_false] at hst
  rcases hst with rfl | rfl | rfl
  · trivial
  · trivial
  · exact ⟨by decide, by decide⟩

/-- C8: for every accepted CONNECT request with a parseable target: the
CONNECT handler itself hands no data to any socket; while the handshake is
pending, whatever inputs come in (any but the `connect` event of the outbound
socket and a request on one of the two sockets), the client socket is handed
nothing, provided the world of the request did not refer to the two sockets;
and after whatever inputs at all, the `connect` event of the outbound socket
hands the client socket exactly one piece of data, the bytes of
`HTTP/1.1 200 Connection Established` and the empty line, with no
`Connection: close` line, by `write`, and leaves its `ended` and `destroyed`
flags as they were.  (A process that has exited on an uncaught exception
performs nothing.) -/
theorem connect_event_replies_established (env : Platform) (w : World) (reqUrl : String)
    (socket : SockId) (head : Option Bytes) (url : URL) (steps : List Step) (w1 v : World)
    (hp : env.parseURL ("whatwgsux://" ++ reqUrl) = some url) (hs : socket ≠ w.nextSock)
    (h1 : w1 = HTTPProxyServer.onConnect env w reqUrl socket head)
    (hv : v = run env w1 steps) :
    writes (w1.since w) = []
      ∧ ((Unreferenced w socket w.nextSock ∧ ∀ st, st ∈ steps → Calm socket w.nextSock st) →
          (v.socks socket).written = (w.socks socket).written)
      ∧ (writes ((step env v (.event w.nextSock .connect)).since v)).filter
            (fun p => p.1 = socket)
          = (if v.crashed = true then []
             else [(socket, Buffer_from_ascii "HTTP/1.1 200 Connection Established\r\n\r\n")])
      ∧ ((step env v (.event w.nextSock .connect)).socks socket).written
          = (v.socks socket).written
            ++ (if v.crashed = true then []
                else [Buffer_from_ascii "HTTP/1.1 200 Connection Established\r\n\r\n"])
      ∧ ((step env v (.event w.nextSock .connect)).socks socket).ended
          = (v.socks socket).ended
      ∧ ((step env v (.event w.nextSock .connect)).socks socket).destroyed
          = (v.socks socket).destroyed := by
  subst h1
  obtain ⟨hl, hin, _⟩ := tunnel_after_steps env w reqUrl socket head url steps hp
  rw [← hv] at hl hin
  have hs2 : w.nextSock ≠ socket := fun h => hs h.symm
  refine ⟨?_, ?_, ?_⟩
  · simp only [HTTPProxyServer.onConnect, hp, createOutTLSSock, newTLSSocket, World.since,
      Socket_connect_trace]
    split_ifs <;> simp [Socket_on, logger, World.modify, World.record, writes]
  · rintro ⟨hu, hcalm⟩
    have hiso := isolated_onConnect env w reqUrl socket head url hp hu
    have hpend := pending_run env socket w.nextSock steps _ hiso hcalm
    rw [hv, hpend.cdata]
    exact (onConnect_ok_state env w reqUrl socket head url hp).2.2.2.2.2.2.2.2 socket hs ▸ rfl
  · by_cases hc : v.crashed = true
    · simp [step, hc, since_self, writes]
    · rw [step_alive env v _ _ hc, if_neg hc, if_neg hc]
      obtain ⟨ha, hw, he, hd, _⟩ := emit_connect_tunnel env v socket w.nextSock head hs hl hin
      refine ⟨?_, hw, he, hd⟩
      rw [← writes_actions, ha]
      cases head <;> simp [writes, hs2]

/-- C8 at the request target `example.test:443` of the specification, asked
for on socket 2 while the tunnel of socket 0 is at work; before the outbound
socket 3 connects, the other tunnel relays data, a further connection is
accepted and asks for a tunnel of its own. -/
theorem connect_event_replies_established_witness :
    node.parseURL ("whatwgsux://" ++ "example.test:443")
        = some { hostname := "example.test", port := some 443 }
      ∧ (2 : SockId) ≠ busy.nextSock
      ∧ ((run node (HTTPProxyServer.onConnect node busy "example.test:443" 2 (some []))
            [.data 0 [104, 105], .connection,
              .request "CONNECT" "example.test" 4 (some [])]).socks 2).written
          = (busy.socks 2).written
      ∧ ((step node
            (run node (HTTPProxyServer.onConnect node busy "example.test:443" 2 (some []))
              [.data 0 [104, 105], .connection,
                .request "CONNECT" "example.test" 4 (some [])])
            (.event busy.nextSock .connect)).socks 2).written
          = [Buffer_from_ascii "HTTP/1.1 200 Connection Established\r\n\r\n"]
      ∧ Buffer_from_ascii "HTTP/1.1 200 Connection Established\r\n\r\n"
          = [72, 84, 84, 80, 47, 49, 46, 49, 32, 50, 48, 48, 32, 67, 111, 110, 110, 101, 99,
              116, 105, 111, 110, 32, 69, 115, 116, 97, 98, 108, 105, 115, 104, 101, 100, 13,
              10, 13, 10] :=
  ⟨by decide, by decide,
    (connect_event_replies_established node busy "example.test:443" 2 (some [])
      { hostname := "example.test", port := some 443 }
      [.data 0 [104, 105], .connection, .request "CONNECT" "example.test" 4 (some [])] _ _
      (by decide) (by decide) rfl rfl).2.1 ⟨unreferenced_busy, calm_example⟩,
    ((connect_event_replies_established node busy "example.test:443" 2 (some [])
      { hostname := "example.test", port := some 443 }
      [.data 0 [104, 105], .connection, .request "CONNECT" "example.test" 4 (some [])] _ _
      (by decide) (by decide) rfl rfl).2.2.2.1).trans (by decide),
    by decide⟩

/-- C9: for every CONNECT request that carried pre-read bytes `h`: when the
target fails to parse, the only data handed to a socket is the 405 response
to the client, no socket object is created and the only callback registered
is the one that destroys the client; when the target parses, the handler
itself hands no data to any socket; while the handshake is pending, whatever
inputs come in (any but the `connect` event of the outbound socket and a
request on one of the two sockets), the outbound socket is handed nothing,
provided the world of the request did not refer to the two sockets; and after
whatever inputs at all, the `connect` event of the outbound socket hands over
exactly two pieces of data, in this order: the 200 response to the client,
then `h`, unmodified and in one `write`, to the outbound socket, which after
a pending handshake has been handed nothing else.  (A process that has exited
on an uncaught exception performs nothing.) -/
theorem connect_event_forwards_head (env : Platform) (w : World) (reqUrl : String)
    (socket : SockId) (h : Bytes) (steps : List Step) (w1 v : World)
    (hs : socket ≠ w.nextSock)
    (h1 : w1 = HTTPProxyServer.onConnect env w reqUrl socket (some h))
    (hv : v = run env w1 steps) :
    match env.parseURL ("whatwgsux://" ++ reqUrl) with
    | none =>
      writes (w1.since w)
          = [(socket, Buffer_from_ascii "HTTP/1.1 405 Invalid URL\r\nConnection: close\r\n\r\n")]
        ∧ w1.nextSock = w.nextSock
        ∧ ∀ s n, (w1.socks s).listeners n
            = (w.socks s).listeners n
              ++ (if s = socket ∧ n = .finish then [Listener.destroySelf socket] else [])
    | some _ =>
      writes (w1.since w) = []
        ∧ ((Unreferenced w socket w.nextSock
              ∧ ∀ st, st ∈ steps → Calm socket w.nextSock st) →
            (v.socks w.nextSock).written = []
            ∧ ((step env v (.event w.nextSock .connect)).socks w.nextSock).written
              = (if v.crashed = true then [] else [h]))
        ∧ writes ((step env v (.event w.nextSock .connect)).since v)
            = (if v.crashed = true then []
               else [ (socket, Buffer_from_ascii "HTTP/1.1 200 Connection Established\r\n\r\n"),
                      (w.nextSock, h) ]) := by
  subst h1
  have hs2 : w.nextSock ≠ socket := fun h => hs h.symm
  cases hp : env.parseURL ("whatwgsux://" ++ reqUrl) with
  | none =>
    refine ⟨?_, ?_, ?_⟩
    · simp [HTTPProxyServer.onConnect, hp, socket_replyHTTP_close, invalid_url_bytes,
        Socket_end, logger, World.since, World.modify, World.record, writes]
    · simp [HTTPProxyServer.onConnect, hp, socket_replyHTTP_close, invalid_url_bytes,
        Socket_end, logger, World.modify, World.record]
    · intro s n
      by_cases h1 : s = socket
      · subst h1
        by_cases h2 : n = .finish
        · subst h2
          simp [HTTPProxyServer.onConnect, hp, socket_replyHTTP_close, invalid_url_bytes,
            Socket_end, logger, World.modify, World.record]
        · simp [HTTPProxyServer.onConnect, hp, socket_replyHTTP_close, invalid_url_bytes,
            Socket_end, logger, World.modify, World.record, Function.update_apply, h2]
      · simp [HTTPProxyServer.onConnect, hp, socket_replyHTTP_close, invalid_url_bytes,
          Socket_end, logger, World.modify, World.record, Function.update_apply, h1]
  | some url =>
    obtain ⟨hl, hin, _⟩ := tunnel_after_steps env w reqUrl socket (some h) url steps hp
    rw [← hv] at hl hin
    have hev := emit_connect_tunnel env v socket w.nextSock (some h) hs hl hin
    refine ⟨?_, ?_, ?_⟩
    · simp only [HTTPProxyServer.onConnect, hp, createOutTLSSock, newTLSSocket, World.since,
        Socket_connect_trace]
      split_ifs <;> simp [Socket_on, logger, World.modify, World.record, writes]
    · rintro ⟨hu, hcalm⟩
      have hiso := isolated_onConnect env w reqUrl socket (some h) url hp hu
      have hpend := pending_run env socket w.nextSock steps _ hiso hcalm
      have h0 : (v.socks w.nextSock).written = [] := by
        rw [hv, hpend.odata]
        exact (onConnect_ok_state env w reqUrl socket (some h) url hp).2.2.1
      refine ⟨h0, ?_⟩
      by_cases hc : v.crashed = true
      · simp [step, hc, h0]
      · rw [step_alive env v _ _ hc, if_neg hc, hev.2.2.2.2.1, h0]
        rfl
    · by_cases hc : v.crashed = true
      · simp [step, hc, since_self, writes]
      · rw [step_alive env v _ _ hc, if_neg hc, ← writes_actions, hev.1]
        simp [writes]

/-- C9 at the request target `example.test:443` with the pre-read bytes
22, 3, 1, asked for on socket 2 while the tunnel of socket 0 is at work;
before the outbound socket 3 connects, the other tunnel relays data, a further
connection is accepted and asks for a tunnel of its own. -/
theorem connect_event_forwards_head_witness :
    (2 : SockId) ≠ busy.nextSock
      ∧ ((run node
            (HTTPProxyServer.onConnect node busy "example.test:443" 2 (some [22, 3, 1]))
            [.data 0 [104, 105], .connection,
              .request "CONNECT" "example.test" 4 (some [])]).socks busy.nextSock).written = []
      ∧ writes ((step node
            (run node
              (HTTPProxyServer.onConnect node busy "example.test:443" 2 (some [22, 3, 1]))
              [.data 0 [104, 105], .connection,
                .request "CONNECT" "example.test" 4 (some [])])
            (.event busy.nextSock .connect)).since
            (run node
              (HTTPProxyServer.onConnect node busy "example.test:443" 2 (some [22, 3, 1]))
              [.data 0 [104, 105], .connection,
                .request "CONNECT" "example.test" 4 (some [])]))
          = [ (2, Buffer_from_ascii "HTTP/1.1 200 Connection Established\r\n\r\n"),
              (busy.nextSock, [22, 3, 1]) ] :=
  ⟨by decide,
    ((connect_event_forwards_head node busy "example.test:443" 2 [22, 3, 1]
      [.data 0 [104, 105], .connection, .request "CONNECT" "example.test" 4 (some [])] _ _
      (by decide) rfl rfl).2.1 ⟨unreferenced_busy, calm_example⟩).1,
    ((connect_event_forwards_head node busy "example.test:443" 2 [22, 3, 1]
      [.data 0 [104, 105], .connection, .request "CONNECT" "example.test" 4 (some [])] _ _
      (by decide) rfl rfl).2.2).trans (by decide)⟩

/-! ## Termination coupling -/

/-- C2, evaluated on the code: for the request target `example.test:443`, when
the outbound socket closes before its `connect` event, or errors (a refused
connection) and then closes, the client socket is not destroyed and no action
at all is performed: the client is left open. -/
theorem outbound_close_before_connect :
    (HTTPProxyServer.onConnect node accepted "example.test:443" 0 (some [])).crashed = false
      ∧ ((emit node (HTTPProxyServer.onConnect node accepted "example.test:443" 0 (some [])) 1
        .close).socks 0).destroyed = false
      ∧ ((emit node
            (emit node (HTTPProxyServer.onConnect node accepted "example.test:443" 0 (some []))
              1 (.error "ECONNREFUSED"))
            1 .close).socks 0).destroyed = false
      ∧ actions ((emit node
            (emit node (HTTPProxyServer.onConnect node accepted "example.test:443" 0 (some []))
              1 (.error "ECONNREFUSED"))
            1 .close).since
            (HTTPProxyServer.onConnect node accepted "example.test:443" 0 (some []))) = []
      ∧ ((run node (HTTPProxyServer.onConnect node accepted "example.test:443" 0 (some []))
            [.event 1 (.error "ECONNREFUSED"), .event 1 .close]).socks 0).destroyed
          = false := by
  decide

/-- What the code does have: once the `connect` event of the outbound socket
has fired in a live process, after whatever inputs came in since the CONNECT
request, a `close` event of the outbound socket, after whatever inputs came
in since, calls `destroy` on the client socket. -/
theorem outbound_close_after_connect (env : Platform) (w : World) (reqUrl : String)
    (socket : SockId) (head : Option Bytes) (url : URL) (before after : List Step)
    (v1 v2 : World)
    (hp : env.parseURL ("whatwgsux://" ++ reqUrl) = some url) (hs : socket ≠ w.nextSock)
    (h1 : v1 = run env (HTTPProxyServer.onConnect env w reqUrl socket head) before)
    (halive : v1.crashed = false)
    (h2 : v2 = run env (step env v1 (.event w.nextSock .connect)) after) :
    ((emit env v2 w.nextSock .close).socks socket).destroyed = true
      ∧ Effect.destroy socket ∈ (emit env v2 w.nextSock .close).since v2 := by
  obtain ⟨hl, hin, hlt⟩ := tunnel_after_steps env w reqUrl socket head url before hp
  rw [← h1] at hl hin hlt
  have hc : ¬ v1.crashed = true := by simp [halive]
  have hev := emit_connect_tunnel env v1 socket w.nextSock head hs hl hin
  rw [step_alive env v1 _ _ hc] at h2
  have hreg : Listener.destroyOther socket ∈
      ((emit env v1 w.nextSock .connect).socks w.nextSock).listeners .close := by
    rw [hev.2.2.2.2.2.1]; simp
  have hext := extends_run env after (emit env v1 w.nextSock .connect)
  have hmem := hext.listeners w.nextSock (by rw [hev.2.2.2.2.2.2.1]; exact hlt) _ _ hreg
  rw [← h2] at hmem
  exact emit_destroys env v2 w.nextSock .close socket hmem

/-- C3: after `twoWayPipe(stm1, stm2)` on two existing sockets, both
forwarding directions are set up (the two `pipe` calls, after which data
arriving on one stream is written to the other), and after whatever inputs
follow, a `close` event on `stm1` calls `stm2.destroy()` and a `close` event
on `stm2` calls `stm1.destroy()`; once both sides have closed, a further
`close` event on either side leaves both destroyed. -/
theorem twoWayPipe_coupling (env : Platform) (w : World) (stm1 stm2 : SockId)
    (steps : List Step) (h1 : stm1 < w.nextSock) (h2 : stm2 < w.nextSock) :
    actions ((twoWayPipe w stm1 stm2).since w)
        = [ .pipe stm1 stm2, .pipe stm2 stm1,
            .on stm1 .close (.destroyOther stm2), .on stm2 .close (.destroyOther stm1) ]
      ∧ (∀ chunk, Effect.write stm2 chunk ∈
          (deliver (twoWayPipe w stm1 stm2) stm1 chunk).since (twoWayPipe w stm1 stm2))
      ∧ (∀ chunk, Effect.write stm1 chunk ∈
          (deliver (twoWayPipe w stm1 stm2) stm2 chunk).since (twoWayPipe w stm1 stm2))
      ∧ ((emit env (run env (twoWayPipe w stm1 stm2) steps) stm1 .close).socks stm2).destroyed
          = true
      ∧ Effect.destroy stm2 ∈
          (emit env (run env (twoWayPipe w stm1 stm2) steps) stm1 .close).since
            (run env (twoWayPipe w stm1 stm2) steps)
      ∧ ((emit env (run env (twoWayPipe w stm1 stm2) steps) stm2 .close).socks stm1).destroyed
          = true
      ∧ Effect.destroy stm1 ∈
          (emit env (run env (twoWayPipe w stm1 stm2) steps) stm2 .close).since
            (run env (twoWayPipe w stm1 stm2) steps)
      ∧ (∀ s, s = stm1 ∨ s = stm2 → ∀ t, t = stm1 ∨ t = stm2 →
          ((emit env
              (emit env (emit env (run env (twoWayPipe w stm1 stm2) steps) stm1 .close)
                stm2 .close)
              s .close).socks t).destroyed = true) := by
  obtain ⟨hr1, hr2, hp1, hp2, hnext⟩ := twoWayPipe_registers w stm1 stm2
  have hext := extends_run env steps (twoWayPipe w stm1 stm2)
  have hm1 := hext.listeners stm1 (by rw [hnext]; exact h1) _ _ hr1
  have hm2 := hext.listeners stm2 (by rw [hnext]; exact h2) _ _ hr2
  have hd2 := emit_destroys env _ stm1 .close stm2 hm1
  have hd1 := emit_destroys env _ stm2 .close stm1 hm2
  refine ⟨?_, fun chunk => deliver_writes _ _ _ chunk hp1,
    fun chunk => deliver_writes _ _ _ chunk hp2, hd2.1, hd2.2, hd1.1, hd1.2, ?_⟩
  · simp [twoWayPipe, Socket_pipe, Socket_on, World.modify, World.record, World.since, actions,
      Effect.isLog]
  · have hg1 := grows_emit env (run env (twoWayPipe w stm1 stm2) steps) stm1 .close
    have hm2n := hg1.listeners stm2 _ _ hm2
    have hb := emit_destroys env _ stm2 .close stm1 hm2n
    have hg2 := grows_emit env
      (emit env (run env (twoWayPipe w stm1 stm2) steps) stm1 .close) stm2 .close
    have hboth1 := hb.1
    have hboth2 := hg2.destroyed stm2 hd2.1
    intro s _ t ht
    have hg3 := grows_emit env
      (emit env (emit env (run env (twoWayPipe w stm1 stm2) steps) stm1 .close) stm2 .close)
      s .close
    rcases ht with rfl | rfl
    · exact hg3.destroyed _ hboth1
    · exact hg3.destroyed _ hboth2

/-- C3 on the client socket 0 and a second accepted socket 1, with data and
an error arriving before the close. -/
theorem twoWayPipe_coupling_witness :
    (0 : SockId) < (accept accepted).1.nextSock
      ∧ (1 : SockId) < (accept accepted).1.nextSock
      ∧ ((emit node
            (run node (twoWayPipe (accept accepted).1 0 1)
              [.data 0 [104, 105], .event 1 (.error "EPIPE")])
            0 .close).socks 1).destroyed = true
      ∧ ((emit node
            (run node (twoWayPipe (accept accepted).1 0 1)
              [.data 0 [104, 105], .event 1 (.error "EPIPE")])
            1 .close).socks 0).destroyed = true :=
  ⟨by decide, by decide,
    (twoWayPipe_coupling node (accept accepted).1 0 1
      [.data 0 [104, 105], .event 1 (.error "EPIPE")] (by decide) (by decide)).2.2.2.1,
    (twoWayPipe_coupling node (accept accepted).1 0 1
      [.data 0 [104, 105], .event 1 (.error "EPIPE")] (by decide) (by decide)).2.2.2.2.2.1⟩

end TLSTunnel
